import Mathlib

/-! # DNS NS record resource of the Azure Stack provider

A shallow embedding of `internal/services/dns/dns_ns_record_resource.go`:
the expand and flatten mappers, and the four CRUD operations, written as pure
functions over an explicit resource state, an explicit log of the API calls
issued so far, and a client whose answers may depend on that log.

Go values are embedded as follows.
* A pointer `*T` is `Option T`; `none` is the nil pointer.
* Dereferencing a nil pointer and a failed unchecked type assertion are
  run-time panics; they are results of their own, distinct from returned errors.
* A Go `error` returned by the API client is its message, `Option String`.
-/

namespace AzureStack

/-! ## Values and SDK types -/

/-- Dynamically typed Go values (`interface{}`) that can sit in a list attribute. -/
inductive Value where
  | nil
  | str (s : String)
  | int (n : Int)
  | bool (b : Bool)
  deriving DecidableEq, Repr

/-- Comma-free type assertion `v.(string)`: the string, or nothing when it would panic. -/
def Value.asString : Value → Option String
  | .str s => some s
  | _ => none

/-- Whether the dynamic type of the value is `string`. -/
def Value.isStr : Value → Bool
  | .str _ => true
  | _ => false

/-- A Go slice value; `none` is the nil slice, `some []` an empty non-nil one. -/
abbrev Slice (α : Type) := Option (List α)

/-- The elements ranged over; ranging over a nil slice visits nothing. -/
def Slice.elems {α : Type} (s : Slice α) : List α := s.getD []

/-- Run-time panics of the Go program. -/
inductive Panic where
  | typeAssertion
  | nilDereference
  deriving DecidableEq, Repr

/-- The SDK type `dns.NsRecord`: one field, a string pointer. -/
structure NsRecord where
  Nsdname : Option String
  deriving DecidableEq, Repr

/-- The SDK enumeration `dns.RecordType`. -/
inductive RecordType where
  | A | AAAA | CNAME | MX | NS | PTR | SOA | SRV | TXT
  deriving DecidableEq, Repr

/-- The Go type `http.Response`, reduced to the field the resource reads. -/
structure HttpResponse where
  StatusCode : Int
  deriving DecidableEq, Repr

/-- The type `autorest.Response`: an embedded `*http.Response`. -/
structure AutorestResponse where
  Response : Option HttpResponse
  deriving DecidableEq, Repr

/-- The user-facing tag map, `map[string]interface{}`. -/
abbrev Tags := List (String × Value)

/-- The SDK metadata map, `map[string]*string`; `none` is the nil map. -/
abbrev Metadata := Option (List (String × Option String))

/-- The SDK type `dns.RecordSetProperties`, with the fields the resource reads or writes. -/
structure RecordSetProperties where
  Metadata : Metadata
  TTL : Option Int
  Fqdn : Option String
  NsRecords : Option (List NsRecord)
  deriving DecidableEq, Repr

/-- The SDK type `dns.RecordSet`. `RecordSetProperties` is an embedded pointer: the source
reads `resp.TTL` and `existing.RecordSetProperties.TTL` for the same field. -/
structure RecordSet where
  Response : AutorestResponse
  ID : Option String
  Name : Option String
  Type_ : Option String
  Etag : Option String
  RecordSetProperties : Option RecordSetProperties
  deriving DecidableEq, Repr

/-- A field promoted through the embedded `*RecordSetProperties`, as in `resp.TTL`.
The result `none` stands for the nil pointer dereference. -/
def RecordSet.promoted {α : Type} (rs : RecordSet)
    (f : AzureStack.RecordSetProperties → α) : Option α :=
  match rs.RecordSetProperties with
  | none => none
  | some p => some (f p)

/-- The constant `http.StatusOK`. -/
def StatusOK : Int := 200

/-- The constant `http.StatusNotFound`. -/
def StatusNotFound : Int := 404

/-- The conversion `int64(n)`: two's complement wrap to 64 bits. -/
def int64 (n : Int) : Int := (n + 2 ^ 63) % 2 ^ 64 - 2 ^ 63

/-- The values of the Go type `int` (at most 64 bits wide). -/
def InGoInt (n : Int) : Prop := -(2 ^ 63) ≤ n ∧ n < 2 ^ 63

instance (n : Int) : Decidable (InGoInt n) := by unfold InGoInt; infer_instance

/-! ## Expand and flatten -/

/-- The loop of `expandazurestackDnsNsRecords`: `records[i] = NsRecord(Nsdname: &record)`
for each `i, v` of the input, with `record := v.(string)` panicking on a non-string. -/
def expandLoop : List Value → Nat → List NsRecord → Except Panic (List NsRecord)
  | [], _, records => .ok records
  | v :: rest, i, records =>
    match v.asString with
    | none => .error .typeAssertion
    | some record => expandLoop rest (i + 1) (records.set i { Nsdname := some record })

/-- The function `expandazurestackDnsNsRecords`: `make([]dns.NsRecord, len(input))`, filled
by the loop; the result is the address of the slice, hence never nil. -/
def expandazurestackDnsNsRecords (input : List Value) : Except Panic (Option (List NsRecord)) :=
  match expandLoop input 0 (List.replicate input.length { Nsdname := none }) with
  | .error p => .error p
  | .ok records => .ok (some records)

/-- The loop of `flattenazurestackDnsNsRecords`: skip a record with a nil name, append the
others. -/
def flattenLoop : List NsRecord → List Value → List Value
  | [], results => results
  | record :: rest, results =>
    match record.Nsdname with
    | none => flattenLoop rest results
    | some s => flattenLoop rest (results ++ [Value.str s])

/-- The function `flattenazurestackDnsNsRecords`. -/
def flattenazurestackDnsNsRecords (records : Option (List NsRecord)) : Slice Value :=
  match records with
  | none => some []
  | some rs => some (flattenLoop rs [])

/-! ## Resource data -/

/-- The resource state `*pluginsdk.ResourceData` of an `azurestack_dns_ns_record`: the
identifier, one field per schema attribute, and the keys whose value differs between
state and plan. -/
structure ResourceData where
  id : String
  name : String
  resource_group_name : String
  zone_name : String
  records : List Value
  ttl : Int
  fqdn : String
  tags : Tags
  changedKeys : List String
  deriving DecidableEq, Repr

/-- A value handed to `d.Set`. String and integer pointers may be nil. -/
inductive AttrValue where
  | str (s : Option String)
  | int (n : Option Int)
  | list (xs : Slice Value)
  | map (m : Tags)
  deriving DecidableEq, Repr

/-- The method `d.SetId`. -/
def ResourceData.SetId (d : ResourceData) (id : String) : ResourceData := { d with id := id }

/-- The method `d.HasChange`. -/
def ResourceData.HasChange (d : ResourceData) (key : String) : Bool := decide (key ∈ d.changedKeys)

/-- The method `d.Set`, checked against the schema of the resource: string attributes take
a string (a nil pointer stores the zero value), `ttl` an integer, `records` a list of
strings, `tags` a map. Anything else leaves the state as it is and returns an error. -/
def ResourceData.Set (d : ResourceData) (key : String) (v : AttrValue) :
    ResourceData × Option String :=
  match key, v with
  | "name", .str s => ({ d with name := s.getD "" }, none)
  | "resource_group_name", .str s => ({ d with resource_group_name := s.getD "" }, none)
  | "zone_name", .str s => ({ d with zone_name := s.getD "" }, none)
  | "fqdn", .str s => ({ d with fqdn := s.getD "" }, none)
  | "ttl", .int n => ({ d with ttl := n.getD 0 }, none)
  | "records", .list xs =>
    if xs.elems.all Value.isStr then ({ d with records := xs.elems }, none)
    else (d, some "records: element is not a string")
  | "tags", .map m => ({ d with tags := m }, none)
  | k, _ => (d, some ("invalid value for attribute " ++ k))

/-! ## Identifiers, helpers and the client -/

/-- The type `parse.NsRecordId`. -/
structure NsRecordId where
  SubscriptionId : String
  ResourceGroup : String
  DnszoneName : String
  NSName : String
  deriving DecidableEq, Repr

/-- The constructor `parse.NewNsRecordID`. -/
def NewNsRecordID (subscriptionId resourceGroup dnszoneName nsName : String) : NsRecordId :=
  { SubscriptionId := subscriptionId, ResourceGroup := resourceGroup,
    DnszoneName := dnszoneName, NSName := nsName }

/-- Functions of other packages that the resource calls and whose bodies are not part of
the file embedded here; the operations are parametric in them. -/
structure Helpers where
  /-- The parser `parse.NsRecordID`. -/
  NsRecordID : String → Except String NsRecordId
  /-- The formatter `NsRecordId.ID`. -/
  ID : NsRecordId → String
  /-- The predicate `utils.ResponseWasNotFound`. -/
  ResponseWasNotFound : AutorestResponse → Bool
  /-- The mapper `tags.Expand`. -/
  tagsExpand : Tags → Metadata
  /-- The mapper `tags.Flatten`. -/
  tagsFlatten : Metadata → Tags

/-- One request to the DNS record sets API. -/
inductive ApiCall where
  | Get (resourceGroup zone name : String) (recordType : RecordType)
  | CreateOrUpdate (resourceGroup zone name : String) (recordType : RecordType)
      (parameters : RecordSet) (eTag ifNoneMatch : String)
  | Delete (resourceGroup zone name : String) (recordType : RecordType) (ifMatch : String)
  deriving DecidableEq, Repr

/-- The record sets client. Each answer may depend on the calls issued before it, which
covers a remote service with state. -/
structure RecordSetsClient where
  Get : List ApiCall → String → String → String → RecordType → RecordSet × Option String
  CreateOrUpdate : List ApiCall → String → String → String → RecordType → RecordSet →
    String → String → RecordSet × Option String
  Delete : List ApiCall → String → String → String → RecordType → String →
    AutorestResponse × Option String

/-- Errors returned by the operations, one constructor per `fmt.Errorf` site, carrying
the arguments of the format string. -/
inductive Error where
  | parse (msg : String)
  | checkingPresence (name zone resGroup : String) (err : String)
  | importAsExists (resourceName id : String)
  | creating (name zone resGroup : String) (err : String)
  | retrieving (name zone resGroup : String) (err : String)
  | propertiesNil (name zone resGroup : String)
  | updating (name zone resGroup : String) (err : String)
  | reading (name : String) (err : String)
  | settingRecords (err : String)
  | settingTags (err : String)
  | deleting (name : String) (err : Option String)
  deriving DecidableEq, Repr

/-- How an operation ends: `return nil`, `return err`, or a panic. -/
inductive Result where
  | ok
  | err (e : Error)
  | panic (p : Panic)
  deriving DecidableEq, Repr

/-- The outcome of an operation: the resource data, the log of API calls, the result. -/
structure Run where
  d : ResourceData
  calls : List ApiCall
  result : Result
  deriving DecidableEq, Repr

/-- The record sets handed to `CreateOrUpdate` in a log, oldest first. -/
def sentRecordSets : List ApiCall → List RecordSet
  | [] => []
  | .CreateOrUpdate _ _ _ _ parameters _ _ :: rest => parameters :: sentRecordSets rest
  | _ :: rest => sentRecordSets rest

/-- The helper `tags.FlattenAndSet`: flatten the metadata and store it under `tags`. -/
def tagsFlattenAndSet (h : Helpers) (d : ResourceData) (metadata : Metadata) :
    ResourceData × Result :=
  match d.Set "tags" (.map (h.tagsFlatten metadata)) with
  | (d, some e) => (d, .err (.settingTags e))
  | (d, none) => (d, .ok)

/-! ## CRUD operations -/

/-- The operation `dnsNsRecordRead`. -/
def dnsNsRecordRead (h : Helpers) (client : RecordSetsClient) (d : ResourceData)
    (calls : List ApiCall) : Run :=
  match h.NsRecordID d.id with
  | .error e => { d := d, calls := calls, result := .err (.parse e) }
  | .ok id =>
    let (resp, err) := client.Get calls id.ResourceGroup id.DnszoneName id.NSName .NS
    let calls := calls ++ [.Get id.ResourceGroup id.DnszoneName id.NSName .NS]
    match err with
    | some e =>
      if h.ResponseWasNotFound resp.Response then
        { d := d.SetId "", calls := calls, result := .ok }
      else
        { d := d, calls := calls, result := .err (.reading id.NSName e) }
    | none =>
      let d := (d.Set "name" (.str (some id.NSName))).1
      let d := (d.Set "resource_group_name" (.str (some id.ResourceGroup))).1
      let d := (d.Set "zone_name" (.str (some id.DnszoneName))).1
      -- `resp.TTL` and `resp.Fqdn` go through the embedded pointer
      match resp.promoted (·.TTL) with
      | none => { d := d, calls := calls, result := .panic .nilDereference }
      | some ttl =>
        let d := (d.Set "ttl" (.int ttl)).1
        match resp.promoted (·.Fqdn) with
        | none => { d := d, calls := calls, result := .panic .nilDereference }
        | some fqdn =>
          let d := (d.Set "fqdn" (.str fqdn)).1
          let setRecords : ResourceData × Option String :=
            match resp.RecordSetProperties with
            | some props => d.Set "records" (.list (flattenazurestackDnsNsRecords props.NsRecords))
            | none => (d, none)
          match setRecords with
          | (d, some e) => { d := d, calls := calls, result := .err (.settingRecords e) }
          | (d, none) =>
            match resp.promoted (·.Metadata) with
            | none => { d := d, calls := calls, result := .panic .nilDereference }
            | some metadata =>
              let (d, r) := tagsFlattenAndSet h d metadata
              { d := d, calls := calls, result := r }

/-- The operation `dnsNsRecordCreate`. -/
def dnsNsRecordCreate (h : Helpers) (client : RecordSetsClient) (subscriptionId : String)
    (d : ResourceData) (calls : List ApiCall) : Run :=
  let name := d.name
  let resGroup := d.resource_group_name
  let zoneName := d.zone_name
  let resourceId := NewNsRecordID subscriptionId resGroup zoneName name
  let (existing, err) := client.Get calls resGroup zoneName name .NS
  let calls := calls ++ [.Get resGroup zoneName name .NS]
  match err, h.ResponseWasNotFound existing.Response with
  | some e, false =>
    { d := d, calls := calls, result := .err (.checkingPresence name zoneName resGroup e) }
  | none, false =>
    { d := d, calls := calls,
      result := .err (.importAsExists "azurestack_dns_ns_record" (h.ID resourceId)) }
  | _, true =>
    let ttl := int64 d.ttl
    let t := d.tags
    let recordsRaw := d.records
    match expandazurestackDnsNsRecords recordsRaw with
    | .error p => { d := d, calls := calls, result := .panic p }
    | .ok records =>
      let parameters : RecordSet :=
        { Response := { Response := none }, ID := none, Name := some name, Type_ := none,
          Etag := none,
          RecordSetProperties := some
            { Metadata := h.tagsExpand t, TTL := some ttl, Fqdn := none, NsRecords := records } }
      let eTag := ""
      let ifNoneMatch := ""
      let (_, err) := client.CreateOrUpdate calls resGroup zoneName name .NS parameters eTag
        ifNoneMatch
      let calls := calls ++ [.CreateOrUpdate resGroup zoneName name .NS parameters eTag ifNoneMatch]
      match err with
      | some e =>
        { d := d, calls := calls, result := .err (.creating name zoneName resGroup e) }
      | none => dnsNsRecordRead h client (d.SetId (h.ID resourceId)) calls

/-- The three conditional assignments of `dnsNsRecordUpdate` on the fetched properties;
a panic of the expansion ends the operation. -/
def applyChanges (h : Helpers) (d : ResourceData) (props : RecordSetProperties) :
    Except Panic RecordSetProperties :=
  let afterRecords : Except Panic RecordSetProperties :=
    if d.HasChange "records" then
      match expandazurestackDnsNsRecords d.records with
      | .error p => .error p
      | .ok records => .ok { props with NsRecords := records }
    else .ok props
  match afterRecords with
  | .error p => .error p
  | .ok props =>
    let props :=
      if d.HasChange "tags" then { props with Metadata := h.tagsExpand d.tags } else props
    let props :=
      if d.HasChange "ttl" then { props with TTL := some (int64 d.ttl) } else props
    .ok props

/-- The operation `dnsNsRecordUpdate`. -/
def dnsNsRecordUpdate (h : Helpers) (client : RecordSetsClient) (d : ResourceData)
    (calls : List ApiCall) : Run :=
  match h.NsRecordID d.id with
  | .error e => { d := d, calls := calls, result := .err (.parse e) }
  | .ok id =>
    let (existing, err) := client.Get calls id.ResourceGroup id.DnszoneName id.NSName .NS
    let calls := calls ++ [.Get id.ResourceGroup id.DnszoneName id.NSName .NS]
    match err with
    | some e =>
      { d := d, calls := calls,
        result := .err (.retrieving id.NSName id.DnszoneName id.ResourceGroup e) }
    | none =>
      match existing.RecordSetProperties with
      | none =>
        { d := d, calls := calls,
          result := .err (.propertiesNil id.NSName id.DnszoneName id.ResourceGroup) }
      | some props =>
        match applyChanges h d props with
        | .error p => { d := d, calls := calls, result := .panic p }
        | .ok props =>
          let existing : RecordSet := { existing with RecordSetProperties := some props }
          let eTag := ""
          let ifNoneMatch := ""
          let (_, err) := client.CreateOrUpdate calls id.ResourceGroup id.DnszoneName id.NSName
            .NS existing eTag ifNoneMatch
          let calls := calls ++
            [.CreateOrUpdate id.ResourceGroup id.DnszoneName id.NSName .NS existing eTag
              ifNoneMatch]
          match err with
          | some e =>
            { d := d, calls := calls,
              result := .err (.updating id.NSName id.DnszoneName id.ResourceGroup e) }
          | none => dnsNsRecordRead h client d calls

/-- The operation `dnsNsRecordDelete`. The status code is read through the embedded
`*http.Response` of the answer. -/
def dnsNsRecordDelete (h : Helpers) (client : RecordSetsClient) (d : ResourceData)
    (calls : List ApiCall) : Run :=
  match h.NsRecordID d.id with
  | .error e => { d := d, calls := calls, result := .err (.parse e) }
  | .ok id =>
    let (resp, err) := client.Delete calls id.ResourceGroup id.DnszoneName id.NSName .NS ""
    let calls := calls ++ [.Delete id.ResourceGroup id.DnszoneName id.NSName .NS ""]
    match resp.Response with
    | none => { d := d, calls := calls, result := .panic .nilDereference }
    | some r =>
      if r.StatusCode ≠ StatusOK then
        { d := d, calls := calls, result := .err (.deleting id.NSName err) }
      else
        { d := d, calls := calls, result := .ok }

/-! ## Concrete instances -/

/-- The identifier of the NS record `ns1` of zone `example.com` in group `rg`. -/
def sampleId : String :=
  "/subscriptions/sub/resourceGroups/rg/providers/Microsoft.Network/dnszones/example.com/NS/ns1"

/-- A concrete instance of the helpers: the parser accepts `sampleId` only, not-found is
status 404, tag values are carried over as strings. -/
def sampleHelpers : Helpers where
  NsRecordID := fun s =>
    if s = sampleId then .ok (NewNsRecordID "sub" "rg" "example.com" "ns1")
    else .error "parsing the NS record identifier"
  ID := fun id =>
    "/subscriptions/" ++ id.SubscriptionId ++ "/resourceGroups/" ++ id.ResourceGroup ++
      "/providers/Microsoft.Network/dnszones/" ++ id.DnszoneName ++ "/NS/" ++ id.NSName
  ResponseWasNotFound := fun resp =>
    match resp.Response with
    | some r => decide (r.StatusCode = StatusNotFound)
    | none => false
  tagsExpand := fun t => some (t.map (fun kv => (kv.1, kv.2.asString)))
  tagsFlatten := fun m => (m.getD []).map (fun kv => (kv.1, Value.str (kv.2.getD "")))

/-- Properties of `ns1` with the given ttl and name servers, without metadata. -/
def sampleProps (ttl : Int) (servers : List String) : RecordSetProperties :=
  { Metadata := none
    TTL := some ttl
    Fqdn := some "ns1.example.com."
    NsRecords := some (servers.map (fun s => { Nsdname := some s })) }

/-- A record set as the API returns it for `ns1`, with the given status and properties. -/
def sampleRecordSet (status : Int) (props : Option RecordSetProperties) : RecordSet :=
  { Response := { Response := some { StatusCode := status } }, ID := some sampleId,
    Name := some "ns1", Type_ := some "Microsoft.Network/dnszones/NS", Etag := none,
    RecordSetProperties := props }

/-- A client that gives the same answers whatever was called before. -/
def constClient (get : RecordSet × Option String) (createOrUpdate : Option String)
    (delete : AutorestResponse × Option String) : RecordSetsClient where
  Get := fun _ _ _ _ _ => get
  CreateOrUpdate := fun _ _ _ _ _ parameters _ _ => (parameters, createOrUpdate)
  Delete := fun _ _ _ _ _ _ => delete

/-- A client of a service that holds no record until one is created: `Get` answers 404
before the first call and the given record set afterwards. -/
def freshClient (stored : RecordSet) : RecordSetsClient where
  Get := fun calls _ _ _ _ =>
    match calls with
    | [] => (sampleRecordSet 404 none, some "StatusCode=404")
    | _ :: _ => (stored, none)
  CreateOrUpdate := fun _ _ _ _ _ parameters _ _ => (parameters, none)
  Delete := fun _ _ _ _ _ _ => ({ Response := some { StatusCode := 200 } }, none)

/-- A configuration of `ns1` with the given records, ttl and changed keys. -/
def sampleData (id : String) (records : List Value) (ttl : Int) (changed : List String) :
    ResourceData :=
  { id := id, name := "ns1", resource_group_name := "rg", zone_name := "example.com",
    records := records, ttl := ttl, fqdn := "", tags := [], changedKeys := changed }

/-- The remote record a call addresses: resource group, zone, record name and type. -/
def ApiCall.target : ApiCall → String × String × String × RecordType
  | .Get resourceGroup zone name recordType => (resourceGroup, zone, name, recordType)
  | .CreateOrUpdate resourceGroup zone name recordType _ _ _ =>
    (resourceGroup, zone, name, recordType)
  | .Delete resourceGroup zone name recordType _ => (resourceGroup, zone, name, recordType)

/-- The remote NS record that a parsed identifier names. -/
def NsRecordId.target (id : NsRecordId) : String × String × String × RecordType :=
  (id.ResourceGroup, id.DnszoneName, id.NSName, .NS)

/-! ## Error messages -/

/-- The `fmt.Errorf` call behind an error returned for a failed API call: the format
string and its arguments, in order. A nil error printed with `%+v` reads `<nil>`. Errors
built elsewhere (the parser, `tf.ImportAsExistsError`, `d.Set`, the nil properties of
Update) have no entry. -/
def Error.errorf : Error → Option (String × List String)
  | .checkingPresence name zone resGroup err =>
    some ("checking for presence of existing DNS NS Record %q (Zone %q / Resource Group %q): %s",
      [name, zone, resGroup, err])
  | .creating name zone resGroup err =>
    some ("creating DNS NS Record %q (Zone %q / Resource Group %q): %s",
      [name, zone, resGroup, err])
  | .retrieving name zone resGroup err =>
    some ("retrieving NS %q (DNS Zone %q / Resource Group %q): %+v", [name, zone, resGroup, err])
  | .updating name zone resGroup err =>
    some ("updating DNS NS Record %q (Zone %q / Resource Group %q): %s",
      [name, zone, resGroup, err])
  | .reading name err => some ("reading DNS NS record %s: %+v", [name, err])
  | .deleting name err => some ("deleting DNS NS Record %s: %+v", [name, err.getD "<nil>"])
  | _ => none

/-- The error a run returned, if it returned one. -/
def Run.error (r : Run) : Option Error :=
  match r.result with
  | .err e => some e
  | _ => none

/-! ## Validation of MX record identifiers -/

/-- Errors appended by `validate.MxRecordID`. -/
inductive ValidateError where
  | expectedString (key : String)
  | parse (err : String)
  deriving DecidableEq, Repr

/-- What `validate.MxRecordID` returns, with the inputs it handed to the parser. -/
structure Validation where
  warnings : Slice String
  errors : Slice ValidateError
  parsed : List String
  deriving DecidableEq, Repr

/-- The built-in `append` on a slice that may be nil. -/
def Slice.append {α : Type} (s : Slice α) (x : α) : Slice α := some (s.elems ++ [x])

/-- The function `validate.MxRecordID`; `parseMxRecordID` stands for `parse.MxRecordID`,
whose body is in another package. The named results start as nil slices. -/
def MxRecordID {α : Type} (parseMxRecordID : String → Except String α) (input : Value)
    (key : String) : Validation :=
  let warnings : Slice String := none
  let errors : Slice ValidateError := none
  match input.asString with
  | none =>
    let errors := errors.append (.expectedString key)
    { warnings := warnings, errors := errors, parsed := [] }
  | some v =>
    match parseMxRecordID v with
    | .error err =>
      let errors := errors.append (.parse err)
      { warnings := warnings, errors := errors, parsed := [v] }
    | .ok _ => { warnings := warnings, errors := errors, parsed := [v] }

/-! ## The shared acceptance test client -/

/-- The fields of `authentication.Builder` that `testclient.Build` fills. -/
structure AuthBuilder where
  SubscriptionID : String
  ClientID : String
  TenantID : String
  ClientSecret : String
  MetadataHost : String
  Environment : String
  SupportsClientSecretAuth : Bool
  deriving DecidableEq, Repr

/-- The fields of `clients.ClientBuilder` that `testclient.Build` fills. -/
structure ClientBuilder (Config Features : Type) where
  AuthConfig : Option Config
  SkipProviderRegistration : Bool
  TerraformVersion : String
  Features : Features

/-- What `testclient.Build` calls outside its package: the process environment, the
authentication builder, `features.Default` and `clients.Build`. The two builders return
a pointer and an error, as in Go. -/
structure TestEnv (Config Features Client : Type) where
  Getenv : String → String
  builderBuild : AuthBuilder → Option Config × Option String
  featuresDefault : Features
  clientsBuild : ClientBuilder Config Features → Option Client × Option String

/-- A builder that `testclient.Build` ran. -/
inductive BuildEvent where
  | authenticationBuild (builder : AuthBuilder)
  | clientsBuild (terraformVersion : String)
  deriving DecidableEq, Repr

/-- The package state of `testclient`: the variable `_client`, and the builders run so
far. The mutex `clientLock` makes each `Build` run alone, so calls are steps on this
state. -/
structure TestClientState (Client : Type) where
  _client : Option Client
  events : List BuildEvent

/-- Errors returned by `testclient.Build`. -/
inductive BuildError where
  | buildingARMClient (err : String)
  | clientsBuild (err : String)
  deriving DecidableEq, Repr

/-- The function `testclient.Build`: the returned pointer, the returned error, and the
package state afterwards. -/
def Build {Config Features Client : Type} (env : TestEnv Config Features Client)
    (st : TestClientState Client) :
    (Option Client × Option BuildError) × TestClientState Client :=
  match st._client with
  | some c => ((some c, none), st)
  | none =>
    let builder : AuthBuilder :=
      { SubscriptionID := env.Getenv "ARM_SUBSCRIPTION_ID"
        ClientID := env.Getenv "ARM_CLIENT_ID"
        TenantID := env.Getenv "ARM_TENANT_ID"
        ClientSecret := env.Getenv "ARM_CLIENT_SECRET"
        MetadataHost := env.Getenv "ARM_METADATA_HOST"
        Environment := env.Getenv "ARM_ENVIRONMENT"
        SupportsClientSecretAuth := true }
    let st := { st with events := st.events ++ [.authenticationBuild builder] }
    match env.builderBuild builder with
    | (_, some err) => ((none, some (.buildingARMClient err)), st)
    | (config, none) =>
      let clientBuilder : ClientBuilder Config Features :=
        { AuthConfig := config
          SkipProviderRegistration := true
          TerraformVersion := env.Getenv "TERRAFORM_CORE_VERSION"
          Features := env.featuresDefault }
      let st := { st with events := st.events ++ [.clientsBuild clientBuilder.TerraformVersion] }
      match env.clientsBuild clientBuilder with
      | (_, some err) => ((none, some (.clientsBuild err)), st)
      | (client, none) => ((client, none), { st with _client := client })

/-- Successive calls of `testclient.Build`, each under its own environment: what each
returned, and the package state at the end. -/
def runBuilds {Config Features Client : Type} :
    List (TestEnv Config Features Client) → TestClientState Client →
    List (Option Client × Option BuildError) × TestClientState Client
  | [], st => ([], st)
  | env :: envs, st =>
    let (out, st) := Build env st
    let (outs, st) := runBuilds envs st
    (out :: outs, st)

/-- An environment in which both builders succeed and the client is `client`. -/
def sampleTestEnv (client : String) : TestEnv String Unit String where
  Getenv := fun name => "value of " ++ name
  builderBuild := fun builder => (some builder.SubscriptionID, none)
  featuresDefault := ()
  clientsBuild := fun _ => (some client, none)

/-! ## The network interface data source -/

/-- The SDK type `network.SubResource`, also standing for `network.SecurityGroup`: the
resource reads the `ID` of either. -/
structure SubResource where
  ID : Option String
  deriving DecidableEq, Repr

/-- The SDK type `network.InterfaceIPConfigurationPropertiesFormat`, with the field the
data source reads. -/
structure InterfaceIPConfigurationPropertiesFormat where
  PrivateIPAddress : Option String
  deriving DecidableEq, Repr

/-- The SDK type `network.InterfaceIPConfiguration`. -/
structure InterfaceIPConfiguration where
  Name : Option String
  InterfaceIPConfigurationPropertiesFormat : Option InterfaceIPConfigurationPropertiesFormat
  deriving DecidableEq, Repr

/-- The SDK type `network.InterfaceDNSSettings`. -/
structure InterfaceDNSSettings where
  DNSServers : Option (Slice String)
  AppliedDNSServers : Option (Slice String)
  InternalDNSNameLabel : Option String
  deriving DecidableEq, Repr

/-- The SDK type `network.InterfacePropertiesFormat`, with the fields the data source
reads. -/
structure InterfacePropertiesFormat where
  VirtualMachine : Option SubResource
  NetworkSecurityGroup : Option SubResource
  IPConfigurations : Option (List InterfaceIPConfiguration)
  DNSSettings : Option InterfaceDNSSettings
  MacAddress : Option String
  EnableIPForwarding : Option Bool
  deriving DecidableEq, Repr

/-- The SDK type `network.Interface`. -/
structure Interface where
  Response : AutorestResponse
  InterfacePropertiesFormat : Option InterfacePropertiesFormat
  Location : Option String
  Tags : Metadata
  deriving DecidableEq, Repr

/-- A value of one attribute of an `ip_configuration` block. -/
inductive BlockValue where
  | str (s : String)
  | bool (b : Bool)
  | strings (xs : List String)
  deriving DecidableEq, Repr

/-- One flattened `ip_configuration` block, a `map[string]interface{}`. -/
abbrev Block := List (String × BlockValue)

/-- The schema of an `ip_configuration` block: for each attribute, whether a value has
its type. -/
def ipConfigurationAttribute (key : String) (v : BlockValue) : Bool :=
  match key, v with
  | "name", .str _ => true
  | "subnet_id", .str _ => true
  | "private_ip_address", .str _ => true
  | "private_ip_address_version", .str _ => true
  | "private_ip_address_allocation", .str _ => true
  | "public_ip_address_id", .str _ => true
  | "application_gateway_backend_address_pools_ids", .strings _ => true
  | "load_balancer_backend_address_pools_ids", .strings _ => true
  | "load_balancer_inbound_nat_rules_ids", .strings _ => true
  | "primary", .bool _ => true
  | _, _ => false

/-- The state of an `azurestack_network_interface` data source: the identifier and one
field per schema attribute. -/
structure NicData where
  id : String
  name : String
  resource_group_name : String
  location : String
  network_security_group_id : String
  mac_address : String
  virtual_machine_id : String
  ip_configuration : List Block
  dns_servers : List String
  internal_dns_name_label : String
  applied_dns_servers : List String
  enable_ip_forwarding : Bool
  private_ip_address : String
  private_ip_addresses : List Value
  tags : Tags
  deriving DecidableEq, Repr

/-- A value handed to `d.Set` of the data source. -/
inductive NicAttr where
  | str (s : Option String)
  | bool (b : Option Bool)
  | list (xs : Slice Value)
  | strings (xs : Slice String)
  | blocks (xs : List Block)
  | map (m : Tags)
  deriving DecidableEq, Repr

/-- The method `d.SetId` of the data source. -/
def NicData.SetId (d : NicData) (id : String) : NicData := { d with id := id }

/-- The method `d.Set` of the data source, checked against its schema. A nil pointer
stores the zero value; the set attributes `dns_servers` and `applied_dns_servers` keep
one of several equal elements; a value of another type leaves the state as it is and
returns an error. -/
def NicData.Set (d : NicData) (key : String) (v : NicAttr) : NicData × Option String :=
  match key, v with
  | "name", .str s => ({ d with name := s.getD "" }, none)
  | "resource_group_name", .str s => ({ d with resource_group_name := s.getD "" }, none)
  | "location", .str s => ({ d with location := s.getD "" }, none)
  | "network_security_group_id", .str s =>
    ({ d with network_security_group_id := s.getD "" }, none)
  | "mac_address", .str s => ({ d with mac_address := s.getD "" }, none)
  | "virtual_machine_id", .str s => ({ d with virtual_machine_id := s.getD "" }, none)
  | "internal_dns_name_label", .str s => ({ d with internal_dns_name_label := s.getD "" }, none)
  | "private_ip_address", .str s => ({ d with private_ip_address := s.getD "" }, none)
  | "enable_ip_forwarding", .bool b => ({ d with enable_ip_forwarding := b.getD false }, none)
  | "dns_servers", .strings xs => ({ d with dns_servers := xs.elems.dedup }, none)
  | "applied_dns_servers", .strings xs =>
    ({ d with applied_dns_servers := xs.elems.dedup }, none)
  | "private_ip_addresses", .list xs =>
    if xs.elems.all Value.isStr then ({ d with private_ip_addresses := xs.elems }, none)
    else (d, some "private_ip_addresses: element is not a string")
  | "ip_configuration", .blocks xs =>
    if xs.all (fun block => block.all (fun kv => ipConfigurationAttribute kv.1 kv.2)) then
      ({ d with ip_configuration := xs }, none)
    else (d, some "ip_configuration: invalid block")
  | "tags", .map m => ({ d with tags := m }, none)
  | k, _ => (d, some ("invalid value for attribute " ++ k))

/-- The type `parse.NetworkInterfaceId`. -/
structure NetworkInterfaceId where
  SubscriptionId : String
  ResourceGroup : String
  Name : String
  deriving DecidableEq, Repr

/-- The constructor `parse.NewNetworkInterfaceID`. -/
def NewNetworkInterfaceID (subscriptionId resourceGroup name : String) : NetworkInterfaceId :=
  { SubscriptionId := subscriptionId, ResourceGroup := resourceGroup, Name := name }

/-- Functions of other packages that the data source calls; the read is parametric in
them. -/
structure NicHelpers where
  /-- The formatter `NetworkInterfaceId.ID`. -/
  ID : NetworkInterfaceId → String
  /-- The formatter `NetworkInterfaceId.String`, used by the verb `%s`. -/
  idString : NetworkInterfaceId → String
  /-- The predicate `utils.ResponseWasNotFound`. -/
  ResponseWasNotFound : AutorestResponse → Bool
  /-- The helper `location.NormalizeNilable`. -/
  NormalizeNilable : Option String → String
  /-- The mapper `flattenNetworkInterfaceIPConfigurations` of the resource file. -/
  flattenNetworkInterfaceIPConfigurations : Option (List InterfaceIPConfiguration) → List Block
  /-- The mapper `tags.Flatten`. -/
  tagsFlatten : Metadata → Tags

/-- Errors returned by the read of the data source. -/
inductive NicError where
  | notFound (id : String)
  | retrieving (id : String) (err : String)
  | settingPrivateIpAddresses (err : String)
  | settingIpConfiguration (err : String)
  | settingTags (err : String)
  deriving DecidableEq, Repr

/-- The outcome of the read: the state, the `Get` calls issued (resource group, name,
expand), and the returned error. -/
structure NicRun where
  d : NicData
  calls : List (String × String × String)
  err : Option NicError
  deriving DecidableEq, Repr

/-- The loop over the IP configurations in `networkInterfaceDataSourceRead`: the first
address that is found while `privateIpAddress` is still empty, and all addresses. -/
def privateIpLoop : List InterfaceIPConfiguration → String → List Value → String × List Value
  | [], privateIpAddress, privateIpAddresses => (privateIpAddress, privateIpAddresses)
  | config :: rest, privateIpAddress, privateIpAddresses =>
    match config.InterfaceIPConfigurationPropertiesFormat with
    | none => privateIpLoop rest privateIpAddress privateIpAddresses
    | some format =>
      match format.PrivateIPAddress with
      | none => privateIpLoop rest privateIpAddress privateIpAddresses
      | some ipAddress =>
        let privateIpAddress := if privateIpAddress = "" then ipAddress else privateIpAddress
        privateIpLoop rest privateIpAddress (privateIpAddresses ++ [Value.str ipAddress])

/-- The assignment `virtualMachineId := ""; if ref != nil && ref.ID != nil ...`, used for
the virtual machine and for the network security group. -/
def subResourceId (ref : Option SubResource) : String :=
  let id := ""
  match ref with
  | some r =>
    match r.ID with
    | some v => v
    | none => id
  | none => id

/-- The part of `networkInterfaceDataSourceRead` under `props != nil`. -/
def setInterfaceProperties (h : NicHelpers) (d : NicData) (props : InterfacePropertiesFormat) :
    NicData × Option NicError :=
  let d := (d.Set "mac_address" (.str props.MacAddress)).1
  let (privateIpAddress, privateIpAddresses) :=
    match props.IPConfigurations with
    | some configs => privateIpLoop configs "" []
    | none => ("", [])
  let d := (d.Set "private_ip_address" (.str (some privateIpAddress))).1
  match d.Set "private_ip_addresses" (.list (some privateIpAddresses)) with
  | (d, some e) => (d, some (.settingPrivateIpAddresses e))
  | (d, none) =>
    match d.Set "ip_configuration"
      (.blocks (h.flattenNetworkInterfaceIPConfigurations props.IPConfigurations)) with
    | (d, some e) => (d, some (.settingIpConfiguration e))
    | (d, none) =>
      let virtualMachineId := subResourceId props.VirtualMachine
      let d := (d.Set "virtual_machine_id" (.str (some virtualMachineId))).1
      let appliedDNSServers : Slice String :=
        match props.DNSSettings with
        | some dnsSettings => dnsSettings.AppliedDNSServers.getD none
        | none => none
      let dnsServers : Slice String :=
        match props.DNSSettings with
        | some dnsSettings => dnsSettings.DNSServers.getD none
        | none => none
      let d :=
        match props.DNSSettings with
        | some dnsSettings =>
          (d.Set "internal_dns_name_label" (.str dnsSettings.InternalDNSNameLabel)).1
        | none => d
      let networkSecurityGroupId := subResourceId props.NetworkSecurityGroup
      let d := (d.Set "network_security_group_id" (.str (some networkSecurityGroupId))).1
      let d := (d.Set "applied_dns_servers" (.strings appliedDNSServers)).1
      let d := (d.Set "dns_servers" (.strings dnsServers)).1
      let d := (d.Set "enable_ip_forwarding" (.bool props.EnableIPForwarding)).1
      (d, none)

/-- The function `networkInterfaceDataSourceRead`; `get` is `InterfacesClient.Get`. -/
def networkInterfaceDataSourceRead (h : NicHelpers)
    (get : String → String → String → Interface × Option String) (subscriptionId : String)
    (d : NicData) : NicRun :=
  let id := NewNetworkInterfaceID subscriptionId d.resource_group_name d.name
  let (resp, err) := get id.ResourceGroup id.Name ""
  let calls := [(id.ResourceGroup, id.Name, "")]
  match err with
  | some e =>
    if h.ResponseWasNotFound resp.Response then
      { d := d, calls := calls, err := some (.notFound (h.idString id)) }
    else
      { d := d, calls := calls, err := some (.retrieving (h.idString id) e) }
  | none =>
    let d := d.SetId (h.ID id)
    let d := (d.Set "name" (.str (some id.Name))).1
    let d := (d.Set "resource_group_name" (.str (some id.ResourceGroup))).1
    let d := (d.Set "location" (.str (some (h.NormalizeNilable resp.Location)))).1
    let (d, failed) :=
      match resp.InterfacePropertiesFormat with
      | some props => setInterfaceProperties h d props
      | none => (d, none)
    match failed with
    | some e => { d := d, calls := calls, err := some e }
    | none =>
      match d.Set "tags" (.map (h.tagsFlatten resp.Tags)) with
      | (d, some e) => { d := d, calls := calls, err := some (.settingTags e) }
      | (d, none) => { d := d, calls := calls, err := none }

/-- A concrete instance of the helpers of the data source. -/
def sampleNicHelpers : NicHelpers where
  ID := fun id =>
    "/subscriptions/" ++ id.SubscriptionId ++ "/resourceGroups/" ++ id.ResourceGroup ++
      "/providers/Microsoft.Network/networkInterfaces/" ++ id.Name
  idString := fun id =>
    "Network Interface: (Name " ++ id.Name ++ " / Resource Group " ++ id.ResourceGroup ++ ")"
  ResponseWasNotFound := fun resp =>
    match resp.Response with
    | some r => decide (r.StatusCode = StatusNotFound)
    | none => false
  NormalizeNilable := fun location => location.getD ""
  flattenNetworkInterfaceIPConfigurations := fun configs =>
    (configs.getD []).map (fun config => [("name", BlockValue.str (config.Name.getD ""))])
  tagsFlatten := fun m => (m.getD []).map (fun kv => (kv.1, Value.str (kv.2.getD "")))

/-- Interface properties with the given references and one IP configuration. -/
def sampleInterfaceProperties (virtualMachine networkSecurityGroup : Option SubResource) :
    InterfacePropertiesFormat :=
  { VirtualMachine := virtualMachine
    NetworkSecurityGroup := networkSecurityGroup
    IPConfigurations := some
      [{ Name := some "primary"
         InterfaceIPConfigurationPropertiesFormat := some { PrivateIPAddress := some "10.0.0.4" } }]
    DNSSettings := none
    MacAddress := some "00-0D-3A-00-00-01"
    EnableIPForwarding := some false }

/-- A `Get` that succeeds with the given properties. -/
def sampleNicGet (props : Option InterfacePropertiesFormat) :
    String → String → String → Interface × Option String :=
  fun _ _ _ =>
    ({ Response := { Response := some { StatusCode := 200 } }
       InterfacePropertiesFormat := props
       Location := some "local"
       Tags := none }, none)

/-- A fresh state of the data source for the interface `nic1` of group `rg`. -/
def sampleNicData : NicData :=
  { id := "", name := "nic1", resource_group_name := "rg", location := ""
    network_security_group_id := "", mac_address := "", virtual_machine_id := ""
    ip_configuration := [], dns_servers := [], internal_dns_name_label := ""
    applied_dns_servers := [], enable_ip_forwarding := false, private_ip_address := ""
    private_ip_addresses := [], tags := [] }

/-! ## The identifier codec of NS records -/

/-- The segments of a path, cut at every `/`. -/
def splitSlash : List Char → List (List Char)
  | [] => [[]]
  | c :: cs =>
    if c = '/' then [] :: splitSlash cs
    else
      match splitSlash cs with
      | [] => [[c]]
      | seg :: segs => (c :: seg) :: segs

/-- The path made of segments, with a `/` between neighbours. -/
def joinSlash : List (List Char) → List Char
  | [] => []
  | [seg] => seg
  | seg :: next :: segs => seg ++ '/' :: joinSlash (next :: segs)

/-- The segments of an identifier string. -/
def segments (s : String) : List String := (splitSlash s.data).map String.mk

/-- The identifier string made of segments. -/
def joinSegments (segs : List String) : String := String.mk (joinSlash (segs.map String.data))

/-- A string in lower case. -/
def lower (s : String) : String := String.mk (s.data.map Char.toLower)

/-- A string that can stand as one path segment: it holds no `/`. -/
def IsSegment (s : String) : Prop := '/' ∉ s.data

instance (s : String) : Decidable (IsSegment s) := by unfold IsSegment; infer_instance

/-- Modelled from the spec: the method `ID` of `parse.NsRecordId` (package `parse` is not
among the sources). The identifier encodes
`{subscriptionId}/{resourceGroup}/{providerNamespace}/{resourceType}/{name}`, for an NS
record `{base}/dnszones/{zone}/NS/{name}`, and construction puts the provider and
resource type segments in lower case. The provider namespace is a constant of the missing
package; `provider` is its lower-case spelling. -/
def NsRecordId.ID (provider : String) (id : NsRecordId) : String :=
  joinSegments [id.SubscriptionId, id.ResourceGroup, provider, "dnszones", id.DnszoneName, "NS",
    id.NSName]

/-- Modelled from the spec: the parser `parse.NsRecordID`. Parsing fails with
`MalformedIdentifier` if the segment count or the casing of the path marker `NS` does
not match; the provider and resource type segments may come in any casing, since the same
resource can be referenced with inconsistent casing. -/
def parseNsRecordID (provider : String) (s : String) : Except String NsRecordId :=
  match segments s with
  | [subscriptionId, resourceGroup, providerNamespace, resourceType, zone, marker, name] =>
    if lower providerNamespace = provider ∧ lower resourceType = "dnszones" ∧ marker = "NS" then
      .ok (NewNsRecordID subscriptionId resourceGroup zone name)
    else .error "MalformedIdentifier"
  | _ => .error "MalformedIdentifier"

/-- Modelled from the spec: the case normalisation `normalize` of the round-trip property,
which puts the provider and resource type segments of an identifier in lower case and
keeps every other character. -/
def normalizeId (s : String) : String :=
  match segments s with
  | [subscriptionId, resourceGroup, providerNamespace, resourceType, zone, marker, name] =>
    joinSegments [subscriptionId, resourceGroup, lower providerNamespace, lower resourceType, zone,
      marker, name]
  | _ => s

/-! ## Route tables: the acceptance tests and the resource they drive -/

/-- One `route` block of a route table configuration. -/
structure RouteBlock where
  name : String
  address_prefix : String
  next_hop_type : String
  next_hop_in_ip_address : Option String
  deriving DecidableEq, Repr

/-- The `azurestack_route_table` resource of a test configuration: the `route` attribute
(`none` when the configuration has no route block at all, `some []` for `route = []`) and
`disable_bgp_route_propagation` when it is written. -/
structure RouteTableConfig where
  route : Option (List RouteBlock)
  disable_bgp_route_propagation : Option Bool
  deriving DecidableEq, Repr

/-- The configuration `RouteTableResource.basic`. -/
def RouteTableResource.basic : RouteTableConfig :=
  { route := none, disable_bgp_route_propagation := none }

/-- The configuration `RouteTableResource.singleRoute`. -/
def RouteTableResource.singleRoute : RouteTableConfig :=
  { route := some
      [{ name := "route1", address_prefix := "10.1.0.0/16", next_hop_type := "vnetlocal"
         next_hop_in_ip_address := none }]
    disable_bgp_route_propagation := none }

/-- The configuration `RouteTableResource.noRouteBlocks`. -/
def RouteTableResource.noRouteBlocks : RouteTableConfig :=
  { route := none, disable_bgp_route_propagation := none }

/-- The configuration `RouteTableResource.singleRouteRemoved`, with `route = []`. -/
def RouteTableResource.singleRouteRemoved : RouteTableConfig :=
  { route := some [], disable_bgp_route_propagation := none }

/-- The configuration `RouteTableResource.multipleRoutes`. -/
def RouteTableResource.multipleRoutes : RouteTableConfig :=
  { route := some
      [{ name := "route1", address_prefix := "10.1.0.0/16", next_hop_type := "vnetlocal"
         next_hop_in_ip_address := none },
       { name := "route2", address_prefix := "10.2.0.0/16", next_hop_type := "vnetlocal"
         next_hop_in_ip_address := none }]
    disable_bgp_route_propagation := none }

/-- The address of a value in the state: `Key("route.#")` is `count "route"`,
`Key("route.0.name")` is `elem "route" 0 "name"`, other keys are `attr`. -/
inductive StateKey where
  | count (list : String)
  | elem (list : String) (index : Nat) (field : String)
  | attr (name : String)
  deriving DecidableEq, Repr

/-- One check of a test step: `ExistsInAzure`, or `Key(key).HasValue(value)`. -/
inductive Check where
  | ExistsInAzure
  | HasValue (key : StateKey) (value : String)
  deriving DecidableEq, Repr

/-- One step of an acceptance test: a configuration to apply and the checks on the
resulting state, or `data.ImportStep()`. -/
inductive TestStep where
  | apply (Config : RouteTableConfig) (Check : List Check)
  | ImportStep
  deriving DecidableEq, Repr

/-- The steps of `TestAccRouteTable_basic`. -/
def TestAccRouteTable_basic : List TestStep :=
  [.apply RouteTableResource.basic
      [.ExistsInAzure,
       .HasValue (.attr "disable_bgp_route_propagation") "false",
       .HasValue (.count "route") "0"],
   .ImportStep]

/-- The steps of `TestAccRouteTable_removeRoute`. -/
def TestAccRouteTable_removeRoute : List TestStep :=
  [.apply RouteTableResource.singleRoute
      [.ExistsInAzure, .HasValue (.count "route") "1"],
   .apply RouteTableResource.noRouteBlocks
      [.ExistsInAzure, .HasValue (.count "route") "1"],
   .apply RouteTableResource.singleRouteRemoved
      [.ExistsInAzure, .HasValue (.count "route") "0"]]

/-- The steps of `TestAccRouteTable_multipleRoutes`. -/
def TestAccRouteTable_multipleRoutes : List TestStep :=
  [.apply RouteTableResource.singleRoute
      [.ExistsInAzure,
       .HasValue (.count "route") "1",
       .HasValue (.elem "route" 0 "name") "route1",
       .HasValue (.elem "route" 0 "address_prefix") "10.1.0.0/16",
       .HasValue (.elem "route" 0 "next_hop_type") "VnetLocal"],
   .apply RouteTableResource.multipleRoutes
      [.ExistsInAzure,
       .HasValue (.count "route") "2",
       .HasValue (.elem "route" 0 "name") "route1",
       .HasValue (.elem "route" 0 "address_prefix") "10.1.0.0/16",
       .HasValue (.elem "route" 0 "next_hop_type") "VnetLocal",
       .HasValue (.elem "route" 1 "name") "route2",
       .HasValue (.elem "route" 1 "address_prefix") "10.2.0.0/16",
       .HasValue (.elem "route" 1 "next_hop_type") "VnetLocal"],
   .ImportStep]

/-- The SDK type `network.Route` as the service holds it. -/
structure Route where
  Name : Option String
  AddressPrefix : Option String
  NextHopType : String
  NextHopIPAddress : Option String
  deriving DecidableEq, Repr

/-- The remote route table: whether it exists, and what the service holds for it. -/
structure RemoteRouteTable where
  isPresent : Bool
  DisableBgpRoutePropagation : Option Bool
  Routes : Option (List Route)
  deriving DecidableEq, Repr

/-- The state of an `azurestack_route_table` resource, as far as the tests read it. -/
structure RouteTableState where
  disable_bgp_route_propagation : Bool
  route : List RouteBlock
  deriving DecidableEq, Repr

/-- Modelled from the spec: the expand mapper of the route table resource (the resource
file is not among the sources, only its tests are). For each list attribute it builds
the SDK slice of structs, and ordered lists preserve configuration order. -/
def expandRouteTableRoutes (blocks : List RouteBlock) : List Route :=
  blocks.map (fun b =>
    { Name := some b.name, AddressPrefix := some <| RouteBlock.address_prefix b,
      NextHopType := b.next_hop_type, NextHopIPAddress := b.next_hop_in_ip_address })

/-- Modelled from the spec: the flatten mapper of the route table resource. Nil pointers
of the response become the empty string or the empty collection, never an error. -/
def flattenRouteTableRoutes (routes : Option (List Route)) : List RouteBlock :=
  (routes.getD []).map (fun r =>
    { name := r.Name.getD "", address_prefix := r.AddressPrefix.getD "",
      next_hop_type := r.NextHopType, next_hop_in_ip_address := r.NextHopIPAddress })

/-- Modelled from the spec: Create or Update of the route table resource against the
backing service, which is the source of truth afterwards. An absent `route` attribute is
not specified and leaves the routes of the table as they are; a written one is expanded
and sent. The service is outside the repository; `spelling` is how it spells a next hop
type that it was sent. -/
def applyRouteTable (spelling : String → String) (remote : RemoteRouteTable)
    (config : RouteTableConfig) : RemoteRouteTable :=
  { isPresent := true
    DisableBgpRoutePropagation :=
      match config.disable_bgp_route_propagation with
      | some b => some b
      | none => remote.DisableBgpRoutePropagation
    Routes :=
      match config.route with
      | some blocks =>
        some ((expandRouteTableRoutes blocks).map
          (fun r => { r with NextHopType := spelling r.NextHopType }))
      | none => remote.Routes }

/-- Modelled from the spec: Read of the route table resource, which fetches the remote
state and flattens it into the state. -/
def readRouteTable (remote : RemoteRouteTable) : RouteTableState :=
  { disable_bgp_route_propagation := remote.DisableBgpRoutePropagation.getD false
    route := flattenRouteTableRoutes remote.Routes }

/-- The value the state holds under a key, printed as the acceptance test compares it. -/
def RouteTableState.value (st : RouteTableState) : StateKey → Option String
  | .count "route" => some (toString st.route.length)
  | .elem "route" i "name" => (st.route[i]?).map (·.name)
  | .elem "route" i "address_prefix" => (st.route[i]?).map RouteBlock.address_prefix
  | .elem "route" i "next_hop_type" => (st.route[i]?).map (·.next_hop_type)
  | .elem "route" i "next_hop_in_ip_address" => (st.route[i]?).bind (·.next_hop_in_ip_address)
  | .attr "disable_bgp_route_propagation" => some (toString st.disable_bgp_route_propagation)
  | _ => none

/-- Whether a check holds after a step. -/
def Check.holds (remote : RemoteRouteTable) : Check → Bool
  | .ExistsInAzure => remote.isPresent
  | .HasValue key value => decide ((readRouteTable remote).value key = some value)

/-- Running the steps of a test in order against the service: every check of every step
holds. An import step reads the same remote table again. -/
def runSteps (spelling : String → String) : List TestStep → RemoteRouteTable → Bool
  | [], _ => true
  | .apply config checks :: steps, remote =>
    let remote := applyRouteTable spelling remote config
    checks.all (Check.holds remote) && runSteps spelling steps remote
  | .ImportStep :: steps, remote => runSteps spelling steps remote

/-- No route table yet. -/
def noRouteTable : RemoteRouteTable :=
  { isPresent := false, DisableBgpRoutePropagation := none, Routes := none }

/-- A service that spells the next hop type `vnetlocal`, in any casing, as `VnetLocal`
and every other one as it was sent. -/
def vnetLocalSpelling (s : String) : String :=
  if lower s = "vnetlocal" then "VnetLocal" else s

/-- Interface properties with three IP configurations: one with an empty address, one
without properties, one with the address `10.0.0.5`. -/
def sampleAddressProperties : InterfacePropertiesFormat :=
  { VirtualMachine := none
    NetworkSecurityGroup := none
    IPConfigurations := some
      [{ Name := some "a"
         InterfaceIPConfigurationPropertiesFormat := some { PrivateIPAddress := some "" } },
       { Name := some "b", InterfaceIPConfigurationPropertiesFormat := none },
       { Name := some "c"
         InterfaceIPConfigurationPropertiesFormat := some { PrivateIPAddress := some "10.0.0.5" } }]
    DNSSettings := none
    MacAddress := none
    EnableIPForwarding := none }

/-- A `Get` that fails with status 404. -/
def sampleNicGetNotFound : String → String → String → Interface × Option String :=
  fun _ _ _ =>
    ({ Response := { Response := some { StatusCode := 404 } }
       InterfacePropertiesFormat := none
       Location := none
       Tags := none }, some "StatusCode=404")

/-- An environment in which the authentication builder fails. -/
def failingTestEnv : TestEnv String Unit String where
  Getenv := fun _ => ""
  builderBuild := fun _ => (none, some "no credentials")
  featuresDefault := ()
  clientsBuild := fun _ => (some "unreachable", none)

/-! ## The client config check of the data source test -/

/-- The attributes of the resources in a `terraform.State`: for each resource name, its
attributes by key. -/
abbrev TerraformState := List (String × List (String × String))

/-- The function `testAzureRMClientConfigAttr`; `TestCheckResourceAttr` stands for
`resource.TestCheckResourceAttr` of the Terraform test helper, whose errors are of type
`ε`. The line that would have returned a message with the values hidden is a comment in
the source. -/
def testAzureRMClientConfigAttr {ε : Type}
    (TestCheckResourceAttr : String → String → String → TerraformState → Option ε)
    (name key value : String) : TerraformState → Option ε :=
  fun s =>
    let err := TestCheckResourceAttr name key value s
    match err with
    | some e => some e
    | none => none

/-- The errors of an attribute check in the manner of `resource.TestCheckResourceAttr`,
by format string: `%s: Attribute '%s' expected %#v, got %#v` carries the expected and the
actual value. -/
inductive AttrCheckError where
  | notFound (name : String)
  | attributeNotFound (name key : String)
  | mismatch (name key expected actual : String)
  deriving DecidableEq, Repr

/-- An attribute check in the manner of `resource.TestCheckResourceAttr`: the resource
and the attribute must be in the state, and the attribute must have the expected value. -/
def sampleTestCheckResourceAttr (name key value : String) (s : TerraformState) :
    Option AttrCheckError :=
  match s.lookup name with
  | none => some (.notFound name)
  | some attrs =>
    match attrs.lookup key with
    | none => some (.attributeNotFound name key)
    | some v => if v = value then none else some (.mismatch name key value v)

/-! ## Configured records and the builders of the test client -/

/-- What `d.Get("records")` hands over in Create for a configured list of strings: the
list reader of the plugin SDK gives the nil value for an element that is the empty
string, for which the diff of a new list has no entry, and the string otherwise. -/
def configuredRecords (R : List String) : List Value :=
  R.map (fun s => if s = "" then Value.nil else Value.str s)

/-- The `authentication.Builder` that `testclient.Build` fills from the environment. -/
def envAuthBuilder {Config Features Client : Type} (env : TestEnv Config Features Client) :
    AuthBuilder :=
  { SubscriptionID := env.Getenv "ARM_SUBSCRIPTION_ID"
    ClientID := env.Getenv "ARM_CLIENT_ID"
    TenantID := env.Getenv "ARM_TENANT_ID"
    ClientSecret := env.Getenv "ARM_CLIENT_SECRET"
    MetadataHost := env.Getenv "ARM_METADATA_HOST"
    Environment := env.Getenv "ARM_ENVIRONMENT"
    SupportsClientSecretAuth := true }

/-- The `clients.ClientBuilder` that `testclient.Build` fills from the environment and
the authentication config. -/
def envClientBuilder {Config Features Client : Type} (env : TestEnv Config Features Client)
    (config : Option Config) : ClientBuilder Config Features :=
  { AuthConfig := config
    SkipProviderRegistration := true
    TerraformVersion := env.Getenv "TERRAFORM_CORE_VERSION"
    Features := env.featuresDefault }

/-- An environment in which the authentication builder succeeds and `clients.Build`
fails. -/
def failingClientsTestEnv : TestEnv String Unit String where
  Getenv := fun _ => ""
  builderBuild := fun _ => (some "config", none)
  featuresDefault := ()
  clientsBuild := fun _ => (none, some "endpoint unreachable")

/-! ## Lemmas on the mappers -/

/-- Writing at the index that follows a written part replaces the first unwritten slot. -/
theorem set_after_written {α : Type} (pre : List α) (a x : α) (tl : List α) :
    (pre ++ a :: tl).set pre.length x = pre ++ x :: tl := by
  induction pre with
  | nil => rfl
  | cons b pre ih => simp [ih]

/-- The expansion loop on strings, started with `pre` already written, writes the
remaining slots in order. -/
theorem expandLoop_strings (l : List String) (pre : List NsRecord) :
    expandLoop (l.map Value.str) pre.length
        (pre ++ List.replicate l.length { Nsdname := none })
      = .ok (pre ++ l.map (fun s => { Nsdname := some s })) := by
  induction l generalizing pre with
  | nil => simp [expandLoop]
  | cons s l ih =>
    have step := ih (pre ++ [{ Nsdname := some s }])
    simp only [List.length_append, List.length_singleton, List.append_assoc,
      List.singleton_append] at step
    simp only [List.map_cons, List.length_cons, List.replicate_succ, expandLoop,
      Value.asString, set_after_written]
    exact step

/-- Expanding a list of strings succeeds with one record per string, in order. -/
theorem expand_strings (l : List String) :
    expandazurestackDnsNsRecords (l.map Value.str)
      = .ok (some (l.map (fun s => { Nsdname := some s }))) := by
  have step := expandLoop_strings l []
  simp only [List.length_nil, List.nil_append] at step
  simp [expandazurestackDnsNsRecords, step]

/-- The flatten loop appends, in order, the names that are present. -/
theorem flattenLoop_eq (rs : List NsRecord) (acc : List Value) :
    flattenLoop rs acc = acc ++ rs.filterMap (fun r => r.Nsdname.map Value.str) := by
  induction rs generalizing acc with
  | nil => simp [flattenLoop]
  | cons r rs ih =>
    cases hr : r.Nsdname with
    | none => simp [flattenLoop, hr, ih]
    | some s => simp [flattenLoop, hr, ih]

/-- Flattening records that all carry a name gives the names. -/
theorem flatten_named (l : List String) :
    flattenazurestackDnsNsRecords (some (l.map (fun s => { Nsdname := some s })))
      = some (l.map Value.str) := by
  simp only [flattenazurestackDnsNsRecords, flattenLoop_eq, List.filterMap_map,
    Function.comp_def, Option.map_some', List.nil_append]
  congr 1
  induction l with
  | nil => rfl
  | cons s l ih => simp [List.filterMap_cons, ih]

/-! ## Claims on the mappers -/

/-- C1: for every list `l` of strings, flattening the expansion of `l` gives `l` back:
the expansion succeeds and its flattening has the same elements in the same order. -/
theorem C1_flatten_expand_roundtrip (l : List String) :
    (expandazurestackDnsNsRecords (l.map Value.str)).map flattenazurestackDnsNsRecords
      = .ok (some (l.map Value.str)) := by
  rw [expand_strings]
  show Except.ok (flattenazurestackDnsNsRecords _) = _
  rw [flatten_named]

/-- C8: on a list of `n` strings the expansion returns exactly `n` records, and the record
at each index carries the string at that index of the input. -/
theorem C8_expand_preserves_order (l : List String) :
    ∃ recs : List NsRecord,
      expandazurestackDnsNsRecords (l.map Value.str) = .ok (some recs) ∧
      recs.length = l.length ∧
      ∀ i : Nat, recs[i]? = (l[i]?).map (fun s => { Nsdname := some s }) := by
  refine ⟨l.map (fun s => { Nsdname := some s }), expand_strings l, by simp, ?_⟩
  intro i
  simp

/-- C10: flattening is total and has no failure result: a nil record list gives an empty
list that is not nil, and every record list gives a list that is not nil. -/
theorem C10_flatten_total :
    flattenazurestackDnsNsRecords none = some [] ∧
    ∀ records : Option (List NsRecord),
      ∃ out : List Value, flattenazurestackDnsNsRecords records = some out := by
  refine ⟨rfl, ?_⟩
  intro records
  cases records with
  | none => exact ⟨[], rfl⟩
  | some rs => exact ⟨flattenLoop rs [], rfl⟩

/-! ## Lemmas on the operations -/

/-- Conversion to 64 bits keeps the value of a Go `int`. -/
theorem int64_of_goInt (n : Int) (hn : InGoInt n) : int64 n = n := by
  unfold InGoInt at hn
  unfold int64
  omega

/-- The record sets sent, over a concatenation of logs. -/
theorem sentRecordSets_append (xs ys : List ApiCall) :
    sentRecordSets (xs ++ ys) = sentRecordSets xs ++ sentRecordSets ys := by
  induction xs with
  | nil => rfl
  | cons c xs ih => cases c <;> simp [sentRecordSets, ih]

/-- Setting `tags` to a map succeeds and touches no other attribute. -/
theorem tagsFlattenAndSet_eq (h : Helpers) (d : ResourceData) (m : Metadata) :
    tagsFlattenAndSet h d m = ({ d with tags := h.tagsFlatten m }, .ok) := by
  simp [tagsFlattenAndSet, ResourceData.Set]

/-- A read logs at most one call, a `Get`. -/
theorem read_calls (h : Helpers) (client : RecordSetsClient) (d : ResourceData)
    (calls : List ApiCall) :
    (dnsNsRecordRead h client d calls).calls = calls ∨
    ∃ rg zone name, (dnsNsRecordRead h client d calls).calls = calls ++ [.Get rg zone name .NS] := by
  unfold dnsNsRecordRead
  cases hid : h.NsRecordID d.id with
  | error e => left; rfl
  | ok id =>
    right
    refine ⟨id.ResourceGroup, id.DnszoneName, id.NSName, ?_⟩
    rcases hg : client.Get calls id.ResourceGroup id.DnszoneName id.NSName .NS with ⟨resp, err⟩
    simp only [hg]
    cases err with
    | some e => by_cases hnf : h.ResponseWasNotFound resp.Response = true <;> simp [hnf]
    | none =>
      cases hp : resp.RecordSetProperties with
      | none => simp [RecordSet.promoted, hp]
      | some props =>
        simp only [RecordSet.promoted, hp]
        split
        · rfl
        · simp [tagsFlattenAndSet_eq]

/-- A read sends no record set. -/
theorem read_sends_nothing (h : Helpers) (client : RecordSetsClient) (d : ResourceData)
    (calls : List ApiCall) :
    sentRecordSets (dnsNsRecordRead h client d calls).calls = sentRecordSets calls := by
  rcases read_calls h client d calls with heq | ⟨rg, zone, name, heq⟩
  · rw [heq]
  · rw [heq, sentRecordSets_append]; simp [sentRecordSets]

/-- The expansion loop panics as soon as the input holds a value that is not a string. -/
theorem expandLoop_non_string (input : List Value) (i : Nat) (records : List NsRecord)
    (hbad : input.all Value.isStr = false) :
    expandLoop input i records = .error .typeAssertion := by
  induction input generalizing i records with
  | nil => simp at hbad
  | cons v rest ih =>
    cases v with
    | str s =>
      have hrest : rest.all Value.isStr = false := by
        simpa [List.all_cons, Value.isStr] using hbad
      simp only [expandLoop, Value.asString]
      exact ih (i + 1) _ hrest
    | nil => simp [expandLoop, Value.asString]
    | int n => simp [expandLoop, Value.asString]
    | bool b => simp [expandLoop, Value.asString]

/-- The expansion of a list holding a value that is not a string is a panic. -/
theorem expand_non_string (input : List Value) (hbad : input.all Value.isStr = false) :
    expandazurestackDnsNsRecords input = .error .typeAssertion := by
  simp [expandazurestackDnsNsRecords, expandLoop_non_string input 0 _ hbad]

/-! ## Claims on the operations -/

/-- C2: when the pre-check `Get` of Create returns without error a response that is not
NotFound, Create returns the import-required error for `azurestack_dns_ns_record`, the
only call issued is that `Get` (no `CreateOrUpdate`), and the resource data, identifier
included, is left as it was. -/
theorem C2_create_existing_requires_import (h : Helpers) (client : RecordSetsClient)
    (subscriptionId : String) (d : ResourceData) (calls : List ApiCall)
    (hok : (client.Get calls d.resource_group_name d.zone_name d.name .NS).2 = none)
    (hfound : h.ResponseWasNotFound
      (client.Get calls d.resource_group_name d.zone_name d.name .NS).1.Response = false) :
    dnsNsRecordCreate h client subscriptionId d calls =
      { d := d
        calls := calls ++ [.Get d.resource_group_name d.zone_name d.name .NS]
        result := .err (.importAsExists "azurestack_dns_ns_record"
          (h.ID (NewNsRecordID subscriptionId d.resource_group_name d.zone_name d.name))) } := by
  unfold dnsNsRecordCreate
  rcases hg : client.Get calls d.resource_group_name d.zone_name d.name .NS with ⟨existing, err⟩
  rw [hg] at hok hfound
  simp only [] at hok hfound
  subst hok
  simp only [hg]
  simp [hfound]

/-- C3: when the `Get` of Read fails and its response is NotFound, for an identifier that
parses, Read sets the identifier to the empty string, changes nothing else in the
resource data, and returns no error. -/
theorem C3_read_not_found_clears_id (h : Helpers) (client : RecordSetsClient)
    (d : ResourceData) (calls : List ApiCall) (id : NsRecordId) (e : String)
    (hid : h.NsRecordID d.id = .ok id)
    (herr : (client.Get calls id.ResourceGroup id.DnszoneName id.NSName .NS).2 = some e)
    (hnf : h.ResponseWasNotFound
      (client.Get calls id.ResourceGroup id.DnszoneName id.NSName .NS).1.Response = true) :
    dnsNsRecordRead h client d calls =
      { d := { d with id := "" }
        calls := calls ++ [.Get id.ResourceGroup id.DnszoneName id.NSName .NS]
        result := .ok } := by
  unfold dnsNsRecordRead
  rcases hg : client.Get calls id.ResourceGroup id.DnszoneName id.NSName .NS with ⟨resp, err⟩
  rw [hg] at herr hnf
  simp only [] at herr hnf
  subst herr
  simp only [hid, hg]
  simp [hnf, ResourceData.SetId]

/-- Witness of C2: a record `ns1` is already there (status 200, no error); Create returns
the import-required error after the one `Get`. -/
theorem C2_create_existing_requires_import_witness :
    dnsNsRecordCreate sampleHelpers
        (constClient (sampleRecordSet 200 none, none) none ({ Response := none }, none))
        "sub" (sampleData "" [.str "ns1.example.com"] 3600 []) [] =
      { d := sampleData "" [.str "ns1.example.com"] 3600 []
        calls := [.Get "rg" "example.com" "ns1" .NS]
        result := .err (.importAsExists "azurestack_dns_ns_record" sampleId) } :=
  C2_create_existing_requires_import sampleHelpers
    (constClient (sampleRecordSet 200 none, none) none ({ Response := none }, none))
    "sub" (sampleData "" [.str "ns1.example.com"] 3600 []) [] rfl rfl

/-- Witness of C3: the record behind `sampleId` is gone (status 404 with an error); Read
clears the identifier and returns no error. -/
theorem C3_read_not_found_clears_id_witness :
    dnsNsRecordRead sampleHelpers
        (constClient (sampleRecordSet 404 none, some "StatusCode=404") none
          ({ Response := none }, none))
        (sampleData sampleId [.str "ns1.example.com"] 3600 []) [] =
      { d := sampleData "" [.str "ns1.example.com"] 3600 []
        calls := [.Get "rg" "example.com" "ns1" .NS]
        result := .ok } :=
  C3_read_not_found_clears_id sampleHelpers
    (constClient (sampleRecordSet 404 none, some "StatusCode=404") none
      ({ Response := none }, none))
    (sampleData sampleId [.str "ns1.example.com"] 3600 []) []
    (NewNsRecordID "sub" "rg" "example.com" "ns1") "StatusCode=404" rfl rfl rfl

/-- C4, as stated, fails: for the identifier `sampleId`, which parses, a delete call
answered with status 404 (the record is already gone) makes Delete return an error. -/
theorem C4_delete_not_found_counterexample :
    sampleHelpers.NsRecordID sampleId = .ok (NewNsRecordID "sub" "rg" "example.com" "ns1") ∧
    (dnsNsRecordDelete sampleHelpers
        (constClient (sampleRecordSet 404 none, some "StatusCode=404") none
          ({ Response := some { StatusCode := StatusNotFound } }, some "StatusCode=404"))
        (sampleData sampleId [.str "ns1.example.com"] 3600 []) []).result
      = .err (.deleting "ns1" (some "StatusCode=404")) :=
  ⟨rfl, rfl⟩

/-- C4, amended: for an identifier that parses, Delete issues one delete call and
returns no error when the response status is 200; when the response status is 404 it
returns the `deleting` error built from the record name and the error of the call. -/
theorem C4_delete_status_decides (h : Helpers) (client : RecordSetsClient)
    (d : ResourceData) (calls : List ApiCall) (id : NsRecordId) (r : HttpResponse)
    (hid : h.NsRecordID d.id = .ok id)
    (hresp : (client.Delete calls id.ResourceGroup id.DnszoneName id.NSName .NS "").1.Response
      = some r) :
    (dnsNsRecordDelete h client d calls).calls
        = calls ++ [.Delete id.ResourceGroup id.DnszoneName id.NSName .NS ""] ∧
    (r.StatusCode = StatusOK → (dnsNsRecordDelete h client d calls).result = .ok) ∧
    (r.StatusCode = StatusNotFound →
      (dnsNsRecordDelete h client d calls).result = .err (.deleting id.NSName
        (client.Delete calls id.ResourceGroup id.DnszoneName id.NSName .NS "").2)) := by
  unfold dnsNsRecordDelete
  rcases hg : client.Delete calls id.ResourceGroup id.DnszoneName id.NSName .NS "" with ⟨resp, err⟩
  rw [hg] at hresp
  simp only [] at hresp
  simp only [hid, hg, hresp]
  refine ⟨?_, ?_, ?_⟩
  · split <;> rfl
  · intro hs
    simp [hs]
  · intro hs
    simp [hs, StatusNotFound, StatusOK]

/-- Witness of C4, amended: a first delete answered with status 200 succeeds. -/
theorem C4_delete_status_decides_witness :
    (dnsNsRecordDelete sampleHelpers
        (constClient (sampleRecordSet 200 none, none) none
          ({ Response := some { StatusCode := 200 } }, none))
        (sampleData sampleId [] 3600 []) []).result = .ok :=
  (C4_delete_status_decides sampleHelpers
    (constClient (sampleRecordSet 200 none, none) none
      ({ Response := some { StatusCode := 200 } }, none))
    (sampleData sampleId [] 3600 []) [] (NewNsRecordID "sub" "rg" "example.com" "ns1")
    { StatusCode := 200 } rfl rfl).2.1 rfl

/-- The properties that Update sends: the fetched ones, with the three changed fields
replaced. -/
theorem applyChanges_eq (h : Helpers) (d : ResourceData) (props : RecordSetProperties)
    (recs : Option (List NsRecord))
    (hexp : expandazurestackDnsNsRecords d.records = .ok recs) (httl : InGoInt d.ttl) :
    applyChanges h d props = .ok
      { props with
        NsRecords := if d.HasChange "records" then recs else props.NsRecords,
        Metadata := if d.HasChange "tags" then h.tagsExpand d.tags else props.Metadata,
        TTL := if d.HasChange "ttl" then some d.ttl else props.TTL } := by
  unfold applyChanges
  rw [hexp, int64_of_goInt d.ttl httl]
  cases d.HasChange "records" <;> cases d.HasChange "tags" <;> cases d.HasChange "ttl" <;> rfl

/-- C5: for an identifier that parses and a fetch that succeeds with properties, the
record set Update hands to `CreateOrUpdate` is the fetched record set in which `NsRecords`
is the expanded `records` exactly when `records` changed, `Metadata` the expanded tags
exactly when `tags` changed, and `TTL` the configured ttl exactly when `ttl` changed;
`Fqdn` and the fields outside the properties are the fetched ones. -/
theorem C5_update_sends_fetched_with_changes (h : Helpers) (client : RecordSetsClient)
    (d : ResourceData) (calls : List ApiCall) (id : NsRecordId) (existing : RecordSet)
    (props : RecordSetProperties) (recs : Option (List NsRecord))
    (hid : h.NsRecordID d.id = .ok id)
    (hget : client.Get calls id.ResourceGroup id.DnszoneName id.NSName .NS = (existing, none))
    (hprops : existing.RecordSetProperties = some props)
    (hexp : expandazurestackDnsNsRecords d.records = .ok recs)
    (httl : InGoInt d.ttl) :
    sentRecordSets (dnsNsRecordUpdate h client d calls).calls = sentRecordSets calls ++
      [{ existing with
          RecordSetProperties := some
            { props with
              NsRecords := if d.HasChange "records" then recs else props.NsRecords,
              Metadata := if d.HasChange "tags" then h.tagsExpand d.tags else props.Metadata,
              TTL := if d.HasChange "ttl" then some d.ttl else props.TTL } }] := by
  unfold dnsNsRecordUpdate
  simp only [hid, hget, hprops, applyChanges_eq h d props recs hexp httl]
  split
  · simp [sentRecordSets_append, sentRecordSets]
  · rw [read_sends_nothing]
    simp [sentRecordSets_append, sentRecordSets]

/-- Witness of C5: only `ttl` changed, from 300 to 3600; the record set sent keeps the
fetched name servers and metadata and carries the new ttl. -/
theorem C5_update_sends_fetched_with_changes_witness :
    sentRecordSets (dnsNsRecordUpdate sampleHelpers
        (constClient
          (sampleRecordSet 200 (some (sampleProps 300 ["a.example"])),
            none)
          none ({ Response := none }, none))
        (sampleData sampleId [.str "a.example"] 3600 ["ttl"]) []).calls =
      [sampleRecordSet 200 (some (sampleProps 3600 ["a.example"]))] :=
  C5_update_sends_fetched_with_changes sampleHelpers
    (constClient
      (sampleRecordSet 200 (some (sampleProps 300 ["a.example"])),
        none)
      none ({ Response := none }, none))
    (sampleData sampleId [.str "a.example"] 3600 ["ttl"]) []
    (NewNsRecordID "sub" "rg" "example.com" "ns1") _ _
    (some [{ Nsdname := some "a.example" }]) rfl rfl rfl rfl (by decide)

/-- C6 fails on the code: a `Get` that succeeds with a record set whose properties block
is nil makes Read panic with a nil pointer dereference, at the read of `resp.TTL`, after
`name`, `resource_group_name` and `zone_name` were set. -/
theorem C6_read_nil_properties_panics :
    dnsNsRecordRead sampleHelpers
        (constClient (sampleRecordSet 200 none, none) none ({ Response := none }, none))
        (sampleData sampleId [] 0 []) [] =
      { d := sampleData sampleId [] 0 []
        calls := [.Get "rg" "example.com" "ns1" .NS]
        result := .panic .nilDereference } := by
  rfl

/-- Every element of a list of strings is a string. -/
theorem all_isStr_strings (l : List String) : (l.map Value.str).all Value.isStr = true := by
  induction l with
  | nil => rfl
  | cons s l ih => simp [Value.isStr]

/-- The record set Create sends when the pre-check reports NotFound and the expansion
succeeds. -/
theorem create_sends (h : Helpers) (client : RecordSetsClient) (subscriptionId : String)
    (d : ResourceData) (calls : List ApiCall) (recs : Option (List NsRecord))
    (hexp : expandazurestackDnsNsRecords d.records = .ok recs)
    (hnf : h.ResponseWasNotFound
      (client.Get calls d.resource_group_name d.zone_name d.name .NS).1.Response = true) :
    sentRecordSets (dnsNsRecordCreate h client subscriptionId d calls).calls =
      sentRecordSets calls ++
        [{ Response := { Response := none }, ID := none, Name := some d.name, Type_ := none,
           Etag := none,
           RecordSetProperties := some
             { Metadata := h.tagsExpand d.tags, TTL := some (int64 d.ttl), Fqdn := none,
               NsRecords := recs } }] := by
  unfold dnsNsRecordCreate
  rcases hg : client.Get calls d.resource_group_name d.zone_name d.name .NS with ⟨existing, err⟩
  rw [hg] at hnf
  simp only [] at hnf
  simp only [hg, hnf, hexp]
  split
  · simp [sentRecordSets_append, sentRecordSets]
  · rw [read_sends_nothing]
    simp [sentRecordSets_append, sentRecordSets]

/-- What a successful read stores, for a record set that has properties. -/
theorem read_with_properties (h : Helpers) (client : RecordSetsClient) (d : ResourceData)
    (calls : List ApiCall) (id : NsRecordId) (rs : RecordSet) (props : RecordSetProperties)
    (hid : h.NsRecordID d.id = .ok id)
    (hget : client.Get calls id.ResourceGroup id.DnszoneName id.NSName .NS = (rs, none))
    (hprops : rs.RecordSetProperties = some props) :
    dnsNsRecordRead h client d calls =
      { d :=
          { d with
            name := id.NSName
            resource_group_name := id.ResourceGroup
            zone_name := id.DnszoneName
            ttl := props.TTL.getD 0
            fqdn := props.Fqdn.getD ""
            records := (flattenazurestackDnsNsRecords props.NsRecords).elems
            tags := h.tagsFlatten props.Metadata }
        calls := calls ++ [.Get id.ResourceGroup id.DnszoneName id.NSName .NS]
        result := .ok } := by
  have hall : (flattenazurestackDnsNsRecords props.NsRecords).elems.all Value.isStr = true := by
    cases hn : props.NsRecords with
    | none => rfl
    | some recs =>
      simp only [flattenazurestackDnsNsRecords, Slice.elems, Option.getD_some, flattenLoop_eq,
        List.nil_append]
      rw [List.all_eq_true]
      intro v hv
      rw [List.mem_filterMap] at hv
      obtain ⟨r, _, hr⟩ := hv
      cases hn2 : r.Nsdname with
      | none => simp [hn2] at hr
      | some s =>
        simp [hn2] at hr
        subst hr
        rfl
  unfold dnsNsRecordRead
  simp only [hid, hget, RecordSet.promoted, hprops, ResourceData.Set, hall, if_true,
    tagsFlattenAndSet_eq, Option.getD_some]

/-- A configured list without the empty string reaches Create as its strings. -/
theorem configuredRecords_strings (R : List String) (hR : "" ∉ R) :
    configuredRecords R = R.map Value.str := by
  unfold configuredRecords
  apply List.map_congr_left
  intro s hs
  have hne : s ≠ "" := fun he => hR (he ▸ hs)
  simp [hne]

/-- A configured list that holds the empty string reaches Create with a value that is
not a string. -/
theorem configuredRecords_empty (R : List String) (hR : "" ∈ R) :
    (configuredRecords R).all Value.isStr = false := by
  rw [List.all_eq_false]
  refine ⟨Value.nil, ?_, by simp [Value.isStr]⟩
  unfold configuredRecords
  rw [List.mem_map]
  exact ⟨"", hR, by simp⟩

/-- A Create whose pre-check reports NotFound and whose records hold a value that is not
a string ends in the panic of the expansion, after the pre-check `Get`. -/
theorem create_non_string (h : Helpers) (client : RecordSetsClient) (subscriptionId : String)
    (d : ResourceData) (calls : List ApiCall)
    (hbad : d.records.all Value.isStr = false)
    (hnf : h.ResponseWasNotFound
      (client.Get calls d.resource_group_name d.zone_name d.name .NS).1.Response = true) :
    dnsNsRecordCreate h client subscriptionId d calls =
      { d := d
        calls := calls ++ [.Get d.resource_group_name d.zone_name d.name .NS]
        result := .panic .typeAssertion } := by
  have hexp := expand_non_string d.records hbad
  unfold dnsNsRecordCreate
  rcases hg : client.Get calls d.resource_group_name d.zone_name d.name .NS with
    ⟨existing0, err⟩
  rw [hg] at hnf
  simp only [] at hnf
  simp only [hg, hnf, hexp]

/-- C7, as stated, fails: the configuration `records = [""]`, `ttl = 3600` reaches Create
with a nil element, and Create, its pre-check reporting NotFound, panics in the
expansion after the pre-check `Get`: no record set is sent and none can be read back. -/
theorem C7_empty_string_record_counterexample :
    configuredRecords [""] = [Value.nil] ∧
    dnsNsRecordCreate sampleHelpers
        (freshClient (sampleRecordSet 200 (some (sampleProps 3600 [""]))))
        "sub" (sampleData "" (configuredRecords [""]) 3600 []) [] =
      { d := sampleData "" [Value.nil] 3600 []
        calls := [.Get "rg" "example.com" "ns1" .NS]
        result := .panic .typeAssertion } ∧
    sentRecordSets (dnsNsRecordCreate sampleHelpers
        (freshClient (sampleRecordSet 200 (some (sampleProps 3600 [""]))))
        "sub" (sampleData "" (configuredRecords [""]) 3600 []) []).calls = [] :=
  ⟨rfl, rfl, rfl⟩

/-- C7, amended: for every configuration whose record list `R` holds no empty string and
whose ttl is `t`, when the pre-check reports NotFound, Create hands `CreateOrUpdate` one
record set, whose name servers are `R` in order and whose TTL is `t`; and, for every list
`R`, a Read whose `Get` returns a record set with the name servers `R` and the TTL `t`
stores `R` in `records` and `t` in `ttl` and returns no error. When `R` holds the empty
string, Create ends in the panic of the expansion and sends nothing. -/
theorem C7_create_sends_and_reads_back (h : Helpers) (client : RecordSetsClient)
    (R : List String) (t : Int) :
    (∀ (subscriptionId : String) (d : ResourceData) (calls : List ApiCall),
      "" ∉ R → d.records = configuredRecords R → d.ttl = t → InGoInt t →
      h.ResponseWasNotFound
        (client.Get calls d.resource_group_name d.zone_name d.name .NS).1.Response = true →
      ∃ sent sentProps,
        sentRecordSets (dnsNsRecordCreate h client subscriptionId d calls).calls
          = sentRecordSets calls ++ [sent] ∧
        sent.RecordSetProperties = some sentProps ∧
        sentProps.NsRecords = some (R.map (fun s => { Nsdname := some s })) ∧
        sentProps.TTL = some t) ∧
    (∀ (d : ResourceData) (calls : List ApiCall) (id : NsRecordId) (rs : RecordSet)
        (props : RecordSetProperties),
      h.NsRecordID d.id = .ok id →
      client.Get calls id.ResourceGroup id.DnszoneName id.NSName .NS = (rs, none) →
      rs.RecordSetProperties = some props →
      props.NsRecords = some (R.map (fun s => { Nsdname := some s })) →
      props.TTL = some t →
      (dnsNsRecordRead h client d calls).result = .ok ∧
      (dnsNsRecordRead h client d calls).d.records = R.map Value.str ∧
      (dnsNsRecordRead h client d calls).d.ttl = t) ∧
    (∀ (subscriptionId : String) (d : ResourceData) (calls : List ApiCall),
      "" ∈ R → d.records = configuredRecords R →
      h.ResponseWasNotFound
        (client.Get calls d.resource_group_name d.zone_name d.name .NS).1.Response = true →
      (dnsNsRecordCreate h client subscriptionId d calls).result = .panic .typeAssertion ∧
      sentRecordSets (dnsNsRecordCreate h client subscriptionId d calls).calls
        = sentRecordSets calls) := by
  refine ⟨?_, ?_, ?_⟩
  · intro subscriptionId d calls hne hR ht hrange hnf
    have hexp : expandazurestackDnsNsRecords d.records
        = .ok (some (R.map (fun s => { Nsdname := some s }))) := by
      rw [hR, configuredRecords_strings R hne]; exact expand_strings R
    refine ⟨_, _, create_sends h client subscriptionId d calls _ hexp hnf, rfl, rfl, ?_⟩
    show some (int64 d.ttl) = some t
    rw [ht, int64_of_goInt t hrange]
  · intro d calls id rs props hid hget hprops hns httl
    rw [read_with_properties h client d calls id rs props hid hget hprops]
    refine ⟨rfl, ?_, ?_⟩
    · show (flattenazurestackDnsNsRecords props.NsRecords).elems = _
      rw [hns, flatten_named]
      rfl
    · show props.TTL.getD 0 = t
      rw [httl]
      rfl
  · intro subscriptionId d calls hin hR hnf
    have hbad : d.records.all Value.isStr = false := by
      rw [hR]; exact configuredRecords_empty R hin
    rw [create_non_string h client subscriptionId d calls hbad hnf]
    exact ⟨rfl, by simp [sentRecordSets_append, sentRecordSets]⟩

/-- Witness of C7, amended: the scenario `records = ["ns1.example.com"]`, `ttl = 3600`
on a fresh state, against a service that holds no record at first and the created one
afterwards; the read back is that of a state whose identifier is set. -/
theorem C7_create_sends_and_reads_back_witness :
    (∃ sent sentProps,
      sentRecordSets (dnsNsRecordCreate sampleHelpers
          (freshClient (sampleRecordSet 200 (some (sampleProps 3600 ["ns1.example.com"]))))
          "sub" (sampleData "" (configuredRecords ["ns1.example.com"]) 3600 []) []).calls
        = sentRecordSets [] ++ [sent] ∧
      sent.RecordSetProperties = some sentProps ∧
      sentProps.NsRecords = some [{ Nsdname := some "ns1.example.com" }] ∧
      sentProps.TTL = some 3600) ∧
    (dnsNsRecordRead sampleHelpers
        (freshClient (sampleRecordSet 200 (some (sampleProps 3600 ["ns1.example.com"]))))
        (sampleData sampleId [] 0 []) [.Get "rg" "example.com" "ns1" .NS]).result = .ok ∧
    (dnsNsRecordRead sampleHelpers
        (freshClient (sampleRecordSet 200 (some (sampleProps 3600 ["ns1.example.com"]))))
        (sampleData sampleId [] 0 []) [.Get "rg" "example.com" "ns1" .NS]).d.records
      = [.str "ns1.example.com"] ∧
    (dnsNsRecordRead sampleHelpers
        (freshClient (sampleRecordSet 200 (some (sampleProps 3600 ["ns1.example.com"]))))
        (sampleData sampleId [] 0 []) [.Get "rg" "example.com" "ns1" .NS]).d.ttl = 3600 :=
  ⟨(C7_create_sends_and_reads_back sampleHelpers
      (freshClient (sampleRecordSet 200 (some (sampleProps 3600 ["ns1.example.com"]))))
      ["ns1.example.com"] 3600).1 "sub"
      (sampleData "" (configuredRecords ["ns1.example.com"]) 3600 []) []
      (by decide) rfl rfl (by decide) rfl,
    (C7_create_sends_and_reads_back sampleHelpers
      (freshClient (sampleRecordSet 200 (some (sampleProps 3600 ["ns1.example.com"]))))
      ["ns1.example.com"] 3600).2.1
      (sampleData sampleId [] 0 []) [.Get "rg" "example.com" "ns1" .NS]
      (NewNsRecordID "sub" "rg" "example.com" "ns1")
      (sampleRecordSet 200 (some (sampleProps 3600 ["ns1.example.com"])))
      (sampleProps 3600 ["ns1.example.com"]) rfl rfl rfl rfl rfl⟩

/-- C9, as stated, fails: with the nil element in `records`, Create ends in a panic of
the type assertion, not in a returned error, and the pre-check `Get` has been issued by
then. -/
theorem C9_non_string_record_counterexample :
    expandazurestackDnsNsRecords [Value.nil] = .error .typeAssertion ∧
    dnsNsRecordCreate sampleHelpers
        (freshClient (sampleRecordSet 200 (some (sampleProps 3600 ["ns1.example.com"]))))
        "sub" (sampleData "" [Value.nil] 3600 []) [] =
      { d := sampleData "" [Value.nil] 3600 []
        calls := [.Get "rg" "example.com" "ns1" .NS]
        result := .panic .typeAssertion } :=
  ⟨rfl, rfl⟩

/-- C9, amended: the expansion has no error result. When an element of `records` is not
a string, its type assertion panics. Every Create whose pre-check reports NotFound then
ends in that panic after the pre-check `Get` and before any `CreateOrUpdate`; every
Update on an identifier that parses, whose fetch succeeds with properties and for which
`records` changed, ends in it after the fetch and before any `CreateOrUpdate`. In both
the resource data is left as it was. -/
theorem C9_non_string_record_panics (h : Helpers) (client : RecordSetsClient)
    (d : ResourceData) (hbad : d.records.all Value.isStr = false) :
    expandazurestackDnsNsRecords d.records = .error .typeAssertion ∧
    (∀ (subscriptionId : String) (calls : List ApiCall),
      h.ResponseWasNotFound
        (client.Get calls d.resource_group_name d.zone_name d.name .NS).1.Response = true →
      dnsNsRecordCreate h client subscriptionId d calls =
        { d := d
          calls := calls ++ [.Get d.resource_group_name d.zone_name d.name .NS]
          result := .panic .typeAssertion }) ∧
    (∀ (calls : List ApiCall) (id : NsRecordId) (existing : RecordSet)
        (props : RecordSetProperties),
      h.NsRecordID d.id = .ok id →
      client.Get calls id.ResourceGroup id.DnszoneName id.NSName .NS = (existing, none) →
      existing.RecordSetProperties = some props →
      d.HasChange "records" = true →
      dnsNsRecordUpdate h client d calls =
        { d := d
          calls := calls ++ [.Get id.ResourceGroup id.DnszoneName id.NSName .NS]
          result := .panic .typeAssertion }) := by
  have hexp := expand_non_string d.records hbad
  refine ⟨hexp, ?_, ?_⟩
  · intro subscriptionId calls hnf
    unfold dnsNsRecordCreate
    rcases hg : client.Get calls d.resource_group_name d.zone_name d.name .NS with
      ⟨existing0, err⟩
    rw [hg] at hnf
    simp only [] at hnf
    simp only [hg, hnf, hexp]
  · intro calls id existing props hid hget hprops hchg
    unfold dnsNsRecordUpdate
    simp only [hid, hget, hprops, applyChanges, hchg, hexp, if_true]

/-- Witness of C9, amended: a Create on a fresh state whose `records` hold the nil
element, against a service that holds no record, and an Update, with `records` changed
to the nil element, of a record that the service holds. -/
theorem C9_non_string_record_panics_witness :
    expandazurestackDnsNsRecords [Value.nil] = .error .typeAssertion ∧
    dnsNsRecordCreate sampleHelpers
        (constClient (sampleRecordSet 404 none, some "StatusCode=404") none
          ({ Response := none }, none))
        "sub" (sampleData "" [Value.nil] 3600 []) [] =
      { d := sampleData "" [Value.nil] 3600 []
        calls := [.Get "rg" "example.com" "ns1" .NS]
        result := .panic .typeAssertion } ∧
    dnsNsRecordUpdate sampleHelpers
        (constClient (sampleRecordSet 200 (some (sampleProps 3600 ["ns1.example.com"])), none)
          none ({ Response := none }, none))
        (sampleData sampleId [Value.nil] 3600 ["records"]) [] =
      { d := sampleData sampleId [Value.nil] 3600 ["records"]
        calls := [.Get "rg" "example.com" "ns1" .NS]
        result := .panic .typeAssertion } :=
  ⟨(C9_non_string_record_panics sampleHelpers
      (constClient (sampleRecordSet 404 none, some "StatusCode=404") none
        ({ Response := none }, none))
      (sampleData "" [Value.nil] 3600 []) rfl).1,
    (C9_non_string_record_panics sampleHelpers
      (constClient (sampleRecordSet 404 none, some "StatusCode=404") none
        ({ Response := none }, none))
      (sampleData "" [Value.nil] 3600 []) rfl).2.1 "sub" [] rfl,
    (C9_non_string_record_panics sampleHelpers
      (constClient (sampleRecordSet 200 (some (sampleProps 3600 ["ns1.example.com"])), none)
        none ({ Response := none }, none))
      (sampleData sampleId [Value.nil] 3600 ["records"]) rfl).2.2 []
      (NewNsRecordID "sub" "rg" "example.com" "ns1")
      (sampleRecordSet 200 (some (sampleProps 3600 ["ns1.example.com"])))
      (sampleProps 3600 ["ns1.example.com"]) rfl rfl rfl rfl⟩

/-! ## Further claims on the mappers -/

/-- C11, as stated, fails: of two records, the second with a nil name, flattening keeps
one entry, the name of the first; no empty string stands for the second. -/
theorem C11_flatten_nil_name_counterexample :
    flattenazurestackDnsNsRecords (some [{ Nsdname := some "ns1.example.com" }, { Nsdname := none }])
      = some [Value.str "ns1.example.com"] :=
  rfl

/-- C11, amended: flattening omits a record whose name pointer is nil, wherever it stands
in the list, so the flattened list has exactly one entry per record that has a name. -/
theorem C11_flatten_omits_nil_names (front back : List NsRecord) :
    flattenazurestackDnsNsRecords (some (front ++ { Nsdname := none } :: back))
      = flattenazurestackDnsNsRecords (some (front ++ back)) ∧
    (flattenazurestackDnsNsRecords (some (front ++ back))).elems.length
      = ((front ++ back).filter (fun r => r.Nsdname.isSome)).length := by
  constructor
  · simp [flattenazurestackDnsNsRecords, flattenLoop_eq]
  · simp only [flattenazurestackDnsNsRecords, Slice.elems, Option.getD_some, flattenLoop_eq,
      List.nil_append]
    generalize front ++ back = rs
    induction rs with
    | nil => rfl
    | cons r rs ih =>
      cases hr : r.Nsdname with
      | none => simp [List.filterMap_cons, List.filter_cons, hr, ih]
      | some s => simp [List.filterMap_cons, List.filter_cons, hr, ih]

/-! ## Further lemmas on the operations -/

/-- The calls a read logs are decided by the stored identifier alone. -/
theorem read_calls_eq (h : Helpers) (client : RecordSetsClient) (d : ResourceData)
    (calls : List ApiCall) :
    (dnsNsRecordRead h client d calls).calls =
      match h.NsRecordID d.id with
      | .error _ => calls
      | .ok id => calls ++ [.Get id.ResourceGroup id.DnszoneName id.NSName .NS] := by
  unfold dnsNsRecordRead
  cases hid : h.NsRecordID d.id with
  | error e => rfl
  | ok id =>
    rcases hg : client.Get calls id.ResourceGroup id.DnszoneName id.NSName .NS with ⟨resp, err⟩
    simp only [hg]
    cases err with
    | some e => by_cases hnf : h.ResponseWasNotFound resp.Response = true <;> simp [hnf]
    | none =>
      cases hp : resp.RecordSetProperties with
      | none => simp [RecordSet.promoted, hp]
      | some props =>
        simp only [RecordSet.promoted, hp]
        split
        · rfl
        · simp [tagsFlattenAndSet_eq]

/-- A read leaves the identifier as it was or clears it. -/
theorem read_id (h : Helpers) (client : RecordSetsClient) (d : ResourceData)
    (calls : List ApiCall) :
    (dnsNsRecordRead h client d calls).d.id = d.id ∨
    (dnsNsRecordRead h client d calls).d.id = "" := by
  cases hid : h.NsRecordID d.id with
  | error e => left; unfold dnsNsRecordRead; simp only [hid]
  | ok id =>
    rcases hg : client.Get calls id.ResourceGroup id.DnszoneName id.NSName .NS with ⟨resp, err⟩
    cases err with
    | some e =>
      unfold dnsNsRecordRead
      simp only [hid, hg]
      by_cases hnf : h.ResponseWasNotFound resp.Response = true
      · right; simp [hnf, ResourceData.SetId]
      · left; simp [hnf]
    | none =>
      left
      cases hp : resp.RecordSetProperties with
      | none =>
        unfold dnsNsRecordRead
        simp [hid, hg, RecordSet.promoted, hp, ResourceData.Set]
      | some props => rw [read_with_properties h client d calls id resp props hid hg hp]

/-! ## Further claims on the operations -/

/-- C12, as stated, fails: the record is created, the `Get` of the concluding Read
reports NotFound, and Create returns no error with the identifier empty, although the
identifier built from the configuration is `sampleId`. -/
theorem C12_create_ok_with_empty_id_counterexample :
    (dnsNsRecordCreate sampleHelpers
        (constClient (sampleRecordSet 404 none, some "StatusCode=404") none
          ({ Response := none }, none))
        "sub" (sampleData "" [.str "ns1.example.com"] 3600 []) []).result = .ok ∧
    (dnsNsRecordCreate sampleHelpers
        (constClient (sampleRecordSet 404 none, some "StatusCode=404") none
          ({ Response := none }, none))
        "sub" (sampleData "" [.str "ns1.example.com"] 3600 []) []).d.id = "" ∧
    sampleHelpers.ID (NewNsRecordID "sub" "rg" "example.com" "ns1") = sampleId :=
  ⟨rfl, rfl, rfl⟩

/-- A read that returns no error parsed the identifier, and either its `Get` succeeded
and the identifier stands, or its `Get` failed with NotFound and the identifier is
cleared. -/
theorem read_ok (h : Helpers) (client : RecordSetsClient) (d : ResourceData)
    (calls : List ApiCall) (hok : (dnsNsRecordRead h client d calls).result = .ok) :
    ∃ id, h.NsRecordID d.id = .ok id ∧
      ((client.Get calls id.ResourceGroup id.DnszoneName id.NSName .NS).2 = none →
        (dnsNsRecordRead h client d calls).d.id = d.id) ∧
      (∀ e, (client.Get calls id.ResourceGroup id.DnszoneName id.NSName .NS).2 = some e →
        h.ResponseWasNotFound
          (client.Get calls id.ResourceGroup id.DnszoneName id.NSName .NS).1.Response = true ∧
        (dnsNsRecordRead h client d calls).d.id = "") := by
  cases hid : h.NsRecordID d.id with
  | error e =>
    unfold dnsNsRecordRead at hok
    simp [hid] at hok
  | ok id =>
    refine ⟨id, rfl, ?_, ?_⟩
    · intro hnone
      rcases hg : client.Get calls id.ResourceGroup id.DnszoneName id.NSName .NS with ⟨resp, err⟩
      rw [hg] at hnone
      simp only [] at hnone
      subst hnone
      cases hp : resp.RecordSetProperties with
      | none =>
        unfold dnsNsRecordRead
        simp [hid, hg, RecordSet.promoted, hp, ResourceData.Set]
      | some props => rw [read_with_properties h client d calls id resp props hid hg hp]
    · intro e he
      rcases hg : client.Get calls id.ResourceGroup id.DnszoneName id.NSName .NS with ⟨resp, err⟩
      rw [hg] at he
      simp only [] at he
      subst he
      unfold dnsNsRecordRead at hok ⊢
      simp only [hid, hg] at hok ⊢
      by_cases hnf : h.ResponseWasNotFound resp.Response = true
      · simp [hnf, ResourceData.SetId]
      · simp [hnf] at hok

/-- A Create that returns no error expanded the records, sent them, assigned the
identifier built from the configuration, and ended as the Read that follows. -/
theorem create_ok_run (h : Helpers) (client : RecordSetsClient) (subscriptionId : String)
    (d : ResourceData) (calls : List ApiCall)
    (hok : (dnsNsRecordCreate h client subscriptionId d calls).result = .ok) :
    ∃ recs, expandazurestackDnsNsRecords d.records = .ok recs ∧
      dnsNsRecordCreate h client subscriptionId d calls =
        dnsNsRecordRead h client
          (d.SetId (h.ID (NewNsRecordID subscriptionId d.resource_group_name d.zone_name d.name)))
          (calls ++ [.Get d.resource_group_name d.zone_name d.name .NS] ++
            [.CreateOrUpdate d.resource_group_name d.zone_name d.name .NS
              { Response := { Response := none }, ID := none, Name := some d.name, Type_ := none,
                Etag := none,
                RecordSetProperties := some
                  { Metadata := h.tagsExpand d.tags, TTL := some (int64 d.ttl), Fqdn := none,
                    NsRecords := recs } } "" ""]) := by
  unfold dnsNsRecordCreate at hok ⊢
  rcases hg : client.Get calls d.resource_group_name d.zone_name d.name .NS with ⟨existing, err⟩
  simp only [hg] at hok ⊢
  cases hnf : h.ResponseWasNotFound existing.Response with
  | false => cases err <;> simp [hnf] at hok
  | true =>
    simp only [hnf] at hok ⊢
    cases hexp : expandazurestackDnsNsRecords d.records with
    | error p => simp [hexp] at hok
    | ok records =>
      simp only [hexp] at hok ⊢
      refine ⟨records, rfl, ?_⟩
      split at hok
      · simp at hok
      · rfl

/-- C12, amended: whenever Create returns without error, the identifier built from the
configuration, `NewNsRecordID(subscription, resource group, zone, name).ID()`, was
assigned and parsed by the concluding Read. If the `Get` of that Read succeeded, the
identifier equals it, and is not empty when that string is not; if that `Get` failed, it
reported NotFound and the identifier is the empty string, to which Read cleared it. -/
theorem C12_create_ok_identifier (h : Helpers) (client : RecordSetsClient)
    (subscriptionId : String) (d : ResourceData) (calls : List ApiCall)
    (hok : (dnsNsRecordCreate h client subscriptionId d calls).result = .ok) :
    ∃ recs id,
      expandazurestackDnsNsRecords d.records = .ok recs ∧
      h.NsRecordID (h.ID (NewNsRecordID subscriptionId d.resource_group_name d.zone_name d.name))
        = .ok id ∧
      ((client.Get
          (calls ++ [.Get d.resource_group_name d.zone_name d.name .NS] ++
            [.CreateOrUpdate d.resource_group_name d.zone_name d.name .NS
              { Response := { Response := none }, ID := none, Name := some d.name, Type_ := none,
                Etag := none,
                RecordSetProperties := some
                  { Metadata := h.tagsExpand d.tags, TTL := some (int64 d.ttl), Fqdn := none,
                    NsRecords := recs } } "" ""])
          id.ResourceGroup id.DnszoneName id.NSName .NS).2 = none →
        (dnsNsRecordCreate h client subscriptionId d calls).d.id
          = h.ID (NewNsRecordID subscriptionId d.resource_group_name d.zone_name d.name) ∧
        (h.ID (NewNsRecordID subscriptionId d.resource_group_name d.zone_name d.name) ≠ "" →
          (dnsNsRecordCreate h client subscriptionId d calls).d.id ≠ "")) ∧
      (∀ e, (client.Get
          (calls ++ [.Get d.resource_group_name d.zone_name d.name .NS] ++
            [.CreateOrUpdate d.resource_group_name d.zone_name d.name .NS
              { Response := { Response := none }, ID := none, Name := some d.name, Type_ := none,
                Etag := none,
                RecordSetProperties := some
                  { Metadata := h.tagsExpand d.tags, TTL := some (int64 d.ttl), Fqdn := none,
                    NsRecords := recs } } "" ""])
          id.ResourceGroup id.DnszoneName id.NSName .NS).2 = some e →
        h.ResponseWasNotFound (client.Get
          (calls ++ [.Get d.resource_group_name d.zone_name d.name .NS] ++
            [.CreateOrUpdate d.resource_group_name d.zone_name d.name .NS
              { Response := { Response := none }, ID := none, Name := some d.name, Type_ := none,
                Etag := none,
                RecordSetProperties := some
                  { Metadata := h.tagsExpand d.tags, TTL := some (int64 d.ttl), Fqdn := none,
                    NsRecords := recs } } "" ""])
          id.ResourceGroup id.DnszoneName id.NSName .NS).1.Response = true ∧
        (dnsNsRecordCreate h client subscriptionId d calls).d.id = "") := by
  obtain ⟨recs, hexp, hrun⟩ := create_ok_run h client subscriptionId d calls hok
  rw [hrun] at hok
  obtain ⟨id, hid, hsucc, hgone⟩ := read_ok h client _ _ hok
  refine ⟨recs, id, hexp, hid, ?_, ?_⟩
  · intro hnone
    have hkept := hsucc hnone
    rw [← hrun] at hkept
    exact ⟨hkept, fun hne => by rw [hkept]; exact hne⟩
  · intro e he
    obtain ⟨hnf, hcleared⟩ := hgone e he
    rw [← hrun] at hcleared
    exact ⟨hnf, hcleared⟩

/-- Witness of C12, amended: the service holds the record after creation; Create returns
no error and the identifier is the one built from the configuration, `sampleId`. -/
theorem C12_create_ok_identifier_witness :
    (dnsNsRecordCreate sampleHelpers
        (freshClient (sampleRecordSet 200 (some (sampleProps 3600 ["ns1.example.com"]))))
        "sub" (sampleData "" [.str "ns1.example.com"] 3600 []) []).d.id = sampleId := by
  obtain ⟨recs, id, _, _, hsucc, _⟩ := C12_create_ok_identifier sampleHelpers
    (freshClient (sampleRecordSet 200 (some (sampleProps 3600 ["ns1.example.com"]))))
    "sub" (sampleData "" [.str "ns1.example.com"] 3600 []) [] rfl
  exact (hsucc rfl).1

/-- C14: when the stored identifier does not parse, Read, Update and Delete each return
the parse error, log no API call, and leave the resource data, identifier included, as
it was. -/
theorem C14_unparsable_identifier (h : Helpers) (client : RecordSetsClient)
    (d : ResourceData) (calls : List ApiCall) (e : String)
    (hid : h.NsRecordID d.id = .error e) :
    dnsNsRecordRead h client d calls = { d := d, calls := calls, result := .err (.parse e) } ∧
    dnsNsRecordUpdate h client d calls = { d := d, calls := calls, result := .err (.parse e) } ∧
    dnsNsRecordDelete h client d calls = { d := d, calls := calls, result := .err (.parse e) } := by
  refine ⟨?_, ?_, ?_⟩
  · unfold dnsNsRecordRead; simp only [hid]
  · unfold dnsNsRecordUpdate; simp only [hid]
  · unfold dnsNsRecordDelete; simp only [hid]

/-- Witness of C14: the identifier `not-an-id` is rejected by the parser. -/
theorem C14_unparsable_identifier_witness :
    dnsNsRecordRead sampleHelpers
        (constClient (sampleRecordSet 200 none, none) none ({ Response := none }, none))
        (sampleData "not-an-id" [] 0 []) [] =
      { d := sampleData "not-an-id" [] 0 [], calls := [],
        result := .err (.parse "parsing the NS record identifier") } ∧
    dnsNsRecordUpdate sampleHelpers
        (constClient (sampleRecordSet 200 none, none) none ({ Response := none }, none))
        (sampleData "not-an-id" [] 0 []) [] =
      { d := sampleData "not-an-id" [] 0 [], calls := [],
        result := .err (.parse "parsing the NS record identifier") } ∧
    dnsNsRecordDelete sampleHelpers
        (constClient (sampleRecordSet 200 none, none) none ({ Response := none }, none))
        (sampleData "not-an-id" [] 0 []) [] =
      { d := sampleData "not-an-id" [] 0 [], calls := [],
        result := .err (.parse "parsing the NS record identifier") } :=
  C14_unparsable_identifier sampleHelpers
    (constClient (sampleRecordSet 200 none, none) none ({ Response := none }, none))
    (sampleData "not-an-id" [] 0 []) [] "parsing the NS record identifier" rfl

/-- Every call a read logs addresses the record that the stored identifier names. -/
theorem read_targets (h : Helpers) (client : RecordSetsClient) (d : ResourceData)
    (calls : List ApiCall) (c : ApiCall)
    (hc : c ∈ (dnsNsRecordRead h client d calls).calls) :
    c ∈ calls ∨ ∃ id, h.NsRecordID d.id = .ok id ∧ c.target = id.target := by
  rw [read_calls_eq] at hc
  cases hid : h.NsRecordID d.id with
  | error e => rw [hid] at hc; exact Or.inl hc
  | ok id =>
    rw [hid] at hc
    simp only [List.mem_append, List.mem_singleton] at hc
    rcases hc with hc | hc
    · exact Or.inl hc
    · exact Or.inr ⟨id, rfl, by rw [hc]; rfl⟩

/-- The calls an update logs do not depend on the `name`, `zone_name` and
`resource_group_name` attributes. -/
theorem update_calls_congr (h : Helpers) (client : RecordSetsClient) (d : ResourceData)
    (calls : List ApiCall) (name zone resGroup : String) :
    (dnsNsRecordUpdate h client
        { d with name := name, zone_name := zone, resource_group_name := resGroup } calls).calls
      = (dnsNsRecordUpdate h client d calls).calls := by
  unfold dnsNsRecordUpdate
  cases hid : h.NsRecordID d.id with
  | error e => simp only [hid]
  | ok id =>
    simp only [hid]
    rcases hg : client.Get calls id.ResourceGroup id.DnszoneName id.NSName .NS with
      ⟨existing, err⟩
    simp only [hg]
    cases err with
    | some e => rfl
    | none =>
      cases hp : existing.RecordSetProperties with
      | none => rfl
      | some props =>
        have hsame : applyChanges h
            { d with name := name, zone_name := zone, resource_group_name := resGroup } props
            = applyChanges h d props := rfl
        simp only [hsame]
        cases applyChanges h d props with
        | error p => rfl
        | ok props2 =>
          simp only []
          split
          · rfl
          · rw [read_calls_eq, read_calls_eq]

/-- Every call an update logs addresses the record that the stored identifier names. -/
theorem update_targets (h : Helpers) (client : RecordSetsClient) (d : ResourceData)
    (calls : List ApiCall) (c : ApiCall)
    (hc : c ∈ (dnsNsRecordUpdate h client d calls).calls) :
    c ∈ calls ∨ ∃ id, h.NsRecordID d.id = .ok id ∧ c.target = id.target := by
  unfold dnsNsRecordUpdate at hc
  cases hid : h.NsRecordID d.id with
  | error e => simp only [hid] at hc; exact Or.inl hc
  | ok id =>
    simp only [hid] at hc
    have hget : ∀ x : ApiCall,
        x ∈ calls ++ [.Get id.ResourceGroup id.DnszoneName id.NSName .NS] →
        x ∈ calls ∨ ∃ id2, Except.ok id = Except.ok (ε := String) id2 ∧ x.target = id2.target := by
      intro x hx
      simp only [List.mem_append, List.mem_singleton] at hx
      rcases hx with hx | hx
      · exact Or.inl hx
      · exact Or.inr ⟨id, rfl, by rw [hx]; rfl⟩
    rcases hg : client.Get calls id.ResourceGroup id.DnszoneName id.NSName .NS with
      ⟨existing, err⟩
    simp only [hg] at hc
    cases err with
    | some e => exact hget c hc
    | none =>
      cases hp : existing.RecordSetProperties with
      | none => simp only [hp] at hc; exact hget c hc
      | some props =>
        simp only [hp] at hc
        cases hch : applyChanges h d props with
        | error p => simp only [hch] at hc; exact hget c hc
        | ok props2 =>
          simp only [hch] at hc
          have hsent : ∀ x : ApiCall,
              x ∈ calls ++ [.Get id.ResourceGroup id.DnszoneName id.NSName .NS] ++
                [.CreateOrUpdate id.ResourceGroup id.DnszoneName id.NSName .NS
                  { existing with RecordSetProperties := some props2 } "" ""] →
              x ∈ calls ∨
                ∃ id2, Except.ok id = Except.ok (ε := String) id2 ∧ x.target = id2.target := by
            intro x hx
            rw [List.mem_append, List.mem_singleton] at hx
            rcases hx with hx | hx
            · exact hget x hx
            · exact Or.inr ⟨id, rfl, by rw [hx]; rfl⟩
          split at hc
          · exact hsent c hc
          · rcases read_targets h client d _ c hc with hin | ⟨id2, hid2, ht⟩
            · exact hsent c hin
            · exact Or.inr ⟨id2, by rw [← hid2, hid], ht⟩

/-- Every call a delete logs addresses the record that the stored identifier names. -/
theorem delete_targets (h : Helpers) (client : RecordSetsClient) (d : ResourceData)
    (calls : List ApiCall) (c : ApiCall)
    (hc : c ∈ (dnsNsRecordDelete h client d calls).calls) :
    c ∈ calls ∨ ∃ id, h.NsRecordID d.id = .ok id ∧ c.target = id.target := by
  unfold dnsNsRecordDelete at hc
  cases hid : h.NsRecordID d.id with
  | error e => simp only [hid] at hc; exact Or.inl hc
  | ok id =>
    simp only [hid] at hc
    have hin : c ∈ calls ++ [.Delete id.ResourceGroup id.DnszoneName id.NSName .NS ""] := by
      rcases hg : client.Delete calls id.ResourceGroup id.DnszoneName id.NSName .NS "" with
        ⟨resp, err⟩
      simp only [hg] at hc
      cases hr : resp.Response with
      | none => simpa only [hr] using hc
      | some r =>
        simp only [hr] at hc
        split at hc <;> exact hc
    simp only [List.mem_append, List.mem_singleton] at hin
    rcases hin with hin | hin
    · exact Or.inl hin
    · exact Or.inr ⟨id, rfl, by rw [hin]; rfl⟩

/-- The calls a delete logs do not depend on the `name`, `zone_name` and
`resource_group_name` attributes. -/
theorem delete_calls_congr (h : Helpers) (client : RecordSetsClient) (d : ResourceData)
    (calls : List ApiCall) (name zone resGroup : String) :
    (dnsNsRecordDelete h client
        { d with name := name, zone_name := zone, resource_group_name := resGroup } calls).calls
      = (dnsNsRecordDelete h client d calls).calls := by
  unfold dnsNsRecordDelete
  cases hid : h.NsRecordID d.id with
  | error e => simp only [hid]
  | ok id =>
    simp only [hid]
    rcases hg : client.Delete calls id.ResourceGroup id.DnszoneName id.NSName .NS "" with
      ⟨resp, err⟩
    simp only [hg]
    cases hr : resp.Response with
    | none => rfl
    | some r => simp only []; split <;> rfl

/-- C13: Read, Update and Delete address the remote record through the stored identifier
only. Replacing the `name`, `zone_name` and `resource_group_name` attributes of a state,
the identifier kept, changes none of the API calls the three operations issue, and every
call they issue is aimed at the resource group, zone and record name parsed from the
identifier. -/
theorem C13_operations_address_by_identifier (h : Helpers) (client : RecordSetsClient)
    (d : ResourceData) (calls : List ApiCall) (name zone resGroup : String) :
    (dnsNsRecordRead h client
        { d with name := name, zone_name := zone, resource_group_name := resGroup } calls).calls
      = (dnsNsRecordRead h client d calls).calls ∧
    (dnsNsRecordUpdate h client
        { d with name := name, zone_name := zone, resource_group_name := resGroup } calls).calls
      = (dnsNsRecordUpdate h client d calls).calls ∧
    (dnsNsRecordDelete h client
        { d with name := name, zone_name := zone, resource_group_name := resGroup } calls).calls
      = (dnsNsRecordDelete h client d calls).calls ∧
    ∀ c : ApiCall,
      (c ∈ (dnsNsRecordRead h client d calls).calls ∨
        c ∈ (dnsNsRecordUpdate h client d calls).calls ∨
        c ∈ (dnsNsRecordDelete h client d calls).calls) →
      c ∈ calls ∨ ∃ id, h.NsRecordID d.id = .ok id ∧ c.target = id.target := by
  refine ⟨?_, update_calls_congr h client d calls name zone resGroup,
    delete_calls_congr h client d calls name zone resGroup, ?_⟩
  · rw [read_calls_eq, read_calls_eq]
  · intro c hc
    rcases hc with hc | hc | hc
    · exact read_targets h client d calls c hc
    · exact update_targets h client d calls c hc
    · exact delete_targets h client d calls c hc

/-- C15 fails on the code: a Read whose `Get` fails with status 500, and a Delete
answered with status 500, return errors whose format arguments are the record name and
the cause only; the resource group `rg` is not among them, while the errors of Create and
Update carry name, zone and resource group. -/
theorem C15_read_delete_errors_omit_resource_group :
    (dnsNsRecordRead sampleHelpers
        (constClient (sampleRecordSet 500 none, some "StatusCode=500") none
          ({ Response := none }, none))
        (sampleData sampleId [] 0 []) []).error.bind Error.errorf
      = some ("reading DNS NS record %s: %+v", ["ns1", "StatusCode=500"]) ∧
    (dnsNsRecordDelete sampleHelpers
        (constClient (sampleRecordSet 500 none, some "StatusCode=500") none
          ({ Response := some { StatusCode := 500 } }, some "StatusCode=500"))
        (sampleData sampleId [] 0 []) []).error.bind Error.errorf
      = some ("deleting DNS NS Record %s: %+v", ["ns1", "StatusCode=500"]) ∧
    "rg" ∉ ["ns1", "StatusCode=500"] ∧
    (dnsNsRecordUpdate sampleHelpers
        (constClient (sampleRecordSet 500 none, some "StatusCode=500") none
          ({ Response := none }, none))
        (sampleData sampleId [] 0 []) []).error.bind Error.errorf
      = some ("retrieving NS %q (DNS Zone %q / Resource Group %q): %+v",
          ["ns1", "example.com", "rg", "StatusCode=500"]) := by
  refine ⟨rfl, rfl, by decide, rfl⟩

/-- C17: `validate.MxRecordID` never returns warnings; its error list is empty exactly
when the input is a string that the parser accepts; a non-string input gives the single
error naming the key, and the parser is not called; a string the parser rejects gives the
single error of the parser. -/
theorem C17_validate_MxRecordID {α : Type} (parseMxRecordID : String → Except String α)
    (input : Value) (key : String) :
    (MxRecordID parseMxRecordID input key).warnings = none ∧
    ((MxRecordID parseMxRecordID input key).errors.elems = [] ↔
      ∃ s id, input = .str s ∧ parseMxRecordID s = .ok id) ∧
    (input.isStr = false →
      (MxRecordID parseMxRecordID input key).errors = some [.expectedString key] ∧
      (MxRecordID parseMxRecordID input key).parsed = []) ∧
    (∀ s e, input = .str s → parseMxRecordID s = .error e →
      (MxRecordID parseMxRecordID input key).errors = some [.parse e]) := by
  cases input with
  | str s =>
    cases hp : parseMxRecordID s with
    | error e =>
      simp only [MxRecordID, Value.asString, Value.isStr, hp, Slice.append, Slice.elems]
      refine ⟨trivial, by simp [hp], by simp, ?_⟩
      intro s2 e2 hs he
      cases hs
      rw [hp] at he
      cases he
      rfl
    | ok id =>
      simp only [MxRecordID, Value.asString, Value.isStr, hp, Slice.elems]
      refine ⟨trivial, by simp [hp], by simp, ?_⟩
      intro s2 e2 hs he
      cases hs
      rw [hp] at he
      cases he
  | nil => simp [MxRecordID, Value.asString, Value.isStr, Slice.append, Slice.elems]
  | int n => simp [MxRecordID, Value.asString, Value.isStr, Slice.append, Slice.elems]
  | bool b => simp [MxRecordID, Value.asString, Value.isStr, Slice.append, Slice.elems]

/-! ## Claims on the shared test client -/

/-- Once the handle is set, a call of `Build` returns it and leaves the state alone. -/
theorem Build_of_set {Config Features Client : Type} (env : TestEnv Config Features Client)
    (st : TestClientState Client) (c : Client) (hset : st._client = some c) :
    Build env st = ((some c, none), st) := by
  unfold Build
  simp only [hset]

/-- A call of `Build` that returns a client without error leaves the handle set to it. -/
theorem Build_sets_handle {Config Features Client : Type}
    (env : TestEnv Config Features Client) (st : TestClientState Client) (c : Client)
    (hbuilt : (Build env st).1 = (some c, none)) :
    (Build env st).2._client = some c := by
  unfold Build at hbuilt ⊢
  cases hst : st._client with
  | some c0 =>
    simp only [hst] at hbuilt ⊢
    simpa using hbuilt
  | none =>
    simp only [hst] at hbuilt ⊢
    split at hbuilt
    · simp at hbuilt
    · split at hbuilt
      · simp at hbuilt
      · simp only [Prod.mk.injEq, and_true] at hbuilt
        simp_all

/-- C18: after a call of `testclient.Build` has returned a client with a nil error, every
later call, under whatever environment, returns that same client with a nil error, runs
neither the authentication builder nor `clients.Build`, and leaves the stored handle as
it is. -/
theorem C18_build_reuses_client {Config Features Client : Type}
    (env : TestEnv Config Features Client) (st : TestClientState Client) (c : Client)
    (later : List (TestEnv Config Features Client))
    (hbuilt : (Build env st).1 = (some c, none)) :
    (Build env st).2._client = some c ∧
    runBuilds later (Build env st).2
      = (List.replicate later.length (some c, none), (Build env st).2) := by
  have hset := Build_sets_handle env st c hbuilt
  refine ⟨hset, ?_⟩
  generalize (Build env st).2 = st2 at hset
  induction later with
  | nil => rfl
  | cons e later ih =>
    simp only [runBuilds, Build_of_set e st2 c hset, ih, List.length_cons, List.replicate_succ]

/-- Witness of C18: the first call builds the client `client-1`; two later calls, under
environments that would build other clients, return `client-1` and run no builder. -/
theorem C18_build_reuses_client_witness :
    (Build (sampleTestEnv "client-1") { _client := none, events := [] }).2._client
      = some "client-1" ∧
    runBuilds [sampleTestEnv "client-2", sampleTestEnv "client-3"]
        (Build (sampleTestEnv "client-1") { _client := none, events := [] }).2
      = (List.replicate [sampleTestEnv "client-2", sampleTestEnv "client-3"].length
          (some "client-1", none),
        (Build (sampleTestEnv "client-1") { _client := none, events := [] }).2) :=
  C18_build_reuses_client (sampleTestEnv "client-1") { _client := none, events := [] }
    "client-1" [sampleTestEnv "client-2", sampleTestEnv "client-3"] rfl

/-! ## Claims on the network interface data source -/

/-- The loop over the IP configurations appends strings only. -/
theorem privateIpLoop_strings (configs : List InterfaceIPConfiguration) (first : String)
    (acc : List Value) (hacc : acc.all Value.isStr = true) :
    (privateIpLoop configs first acc).2.all Value.isStr = true := by
  induction configs generalizing first acc with
  | nil => simpa [privateIpLoop] using hacc
  | cons config rest ih =>
    cases h1 : config.InterfaceIPConfigurationPropertiesFormat with
    | none => simp only [privateIpLoop, h1]; exact ih first acc hacc
    | some format =>
      cases h2 : format.PrivateIPAddress with
      | none => simp only [privateIpLoop, h1, h2]; exact ih first acc hacc
      | some ip =>
        simp only [privateIpLoop, h1, h2]
        apply ih
        simp only [List.all_append, hacc, List.all_cons, Value.isStr, List.all_nil, Bool.and_self]

/-- Setting a string attribute of the data source: `mac_address`. -/
theorem NicData.set_mac_address (d : NicData) (s : Option String) :
    d.Set "mac_address" (.str s) = ({ d with mac_address := s.getD "" }, none) := rfl

/-- Setting a string attribute of the data source: `private_ip_address`. -/
theorem NicData.set_private_ip_address (d : NicData) (s : Option String) :
    d.Set "private_ip_address" (.str s) = ({ d with private_ip_address := s.getD "" }, none) :=
  rfl

/-- Setting `private_ip_addresses` to a list of strings. -/
theorem NicData.set_private_ip_addresses (d : NicData) (xs : List Value)
    (hxs : xs.all Value.isStr = true) :
    d.Set "private_ip_addresses" (.list (some xs))
      = ({ d with private_ip_addresses := xs }, none) := by
  show (if (Slice.elems (some xs)).all Value.isStr then _ else _) = _
  simp only [Slice.elems, Option.getD_some, hxs, if_true]

/-- Setting `ip_configuration` to blocks that fit the schema. -/
theorem NicData.set_ip_configuration (d : NicData) (xs : List Block)
    (hxs : xs.all (fun block => block.all (fun kv => ipConfigurationAttribute kv.1 kv.2)) = true) :
    d.Set "ip_configuration" (.blocks xs) = ({ d with ip_configuration := xs }, none) := by
  show (if xs.all (fun block => block.all (fun kv => ipConfigurationAttribute kv.1 kv.2))
    then _ else _) = _
  simp only [hxs, if_true]

/-- Setting a string attribute of the data source: `virtual_machine_id`. -/
theorem NicData.set_virtual_machine_id (d : NicData) (s : Option String) :
    d.Set "virtual_machine_id" (.str s) = ({ d with virtual_machine_id := s.getD "" }, none) :=
  rfl

/-- Setting a string attribute of the data source: `internal_dns_name_label`. -/
theorem NicData.set_internal_dns_name_label (d : NicData) (s : Option String) :
    d.Set "internal_dns_name_label" (.str s)
      = ({ d with internal_dns_name_label := s.getD "" }, none) := rfl

/-- Setting a string attribute of the data source: `network_security_group_id`. -/
theorem NicData.set_network_security_group_id (d : NicData) (s : Option String) :
    d.Set "network_security_group_id" (.str s)
      = ({ d with network_security_group_id := s.getD "" }, none) := rfl

/-- Setting the set `applied_dns_servers`. -/
theorem NicData.set_applied_dns_servers (d : NicData) (xs : Slice String) :
    d.Set "applied_dns_servers" (.strings xs)
      = ({ d with applied_dns_servers := xs.elems.dedup }, none) :=
  rfl

/-- Setting the set `dns_servers`. -/
theorem NicData.set_dns_servers (d : NicData) (xs : Slice String) :
    d.Set "dns_servers" (.strings xs) = ({ d with dns_servers := xs.elems.dedup }, none) := rfl

/-- Setting `enable_ip_forwarding`. -/
theorem NicData.set_enable_ip_forwarding (d : NicData) (b : Option Bool) :
    d.Set "enable_ip_forwarding" (.bool b) = ({ d with enable_ip_forwarding := b.getD false }, none) :=
  rfl

/-- Setting `name`, `resource_group_name`, `location` and `tags`. -/
theorem NicData.set_header (d : NicData) (s : Option String) (m : Tags) :
    d.Set "name" (.str s) = ({ d with name := s.getD "" }, none) ∧
    d.Set "resource_group_name" (.str s) = ({ d with resource_group_name := s.getD "" }, none) ∧
    d.Set "location" (.str s) = ({ d with location := s.getD "" }, none) ∧
    d.Set "tags" (.map m) = ({ d with tags := m }, none) :=
  ⟨rfl, rfl, rfl, rfl⟩

/-- What the part under `props != nil` stores for the two references, when the flattened
IP configurations fit the schema. -/
theorem setInterfaceProperties_references (h : NicHelpers) (d : NicData)
    (props : InterfacePropertiesFormat)
    (hblocks : (h.flattenNetworkInterfaceIPConfigurations props.IPConfigurations).all
      (fun block => block.all (fun kv => ipConfigurationAttribute kv.1 kv.2)) = true) :
    (setInterfaceProperties h d props).2 = none ∧
    (setInterfaceProperties h d props).1.id = d.id ∧
    (setInterfaceProperties h d props).1.virtual_machine_id
      = subResourceId props.VirtualMachine ∧
    (setInterfaceProperties h d props).1.network_security_group_id
      = subResourceId props.NetworkSecurityGroup := by
  have hips : (match props.IPConfigurations with
        | some cs => privateIpLoop cs "" []
        | none => ("", [])).2.all Value.isStr = true := by
    cases props.IPConfigurations with
    | none => rfl
    | some cs => exact privateIpLoop_strings cs "" [] rfl
  unfold setInterfaceProperties
  simp only [NicData.set_mac_address, NicData.set_private_ip_address,
    NicData.set_private_ip_addresses _ _ hips, NicData.set_ip_configuration _ _ hblocks,
    NicData.set_virtual_machine_id, NicData.set_internal_dns_name_label,
    NicData.set_network_security_group_id, NicData.set_applied_dns_servers,
    NicData.set_dns_servers, NicData.set_enable_ip_forwarding, Option.getD_some]
  cases props.DNSSettings <;> simp

/-- C19: when the `Get` succeeds with interface properties, and the flattened IP
configurations fit the schema, the read returns no error and stores in
`virtual_machine_id` (and in `network_security_group_id`) the referenced ID when both the
reference and its ID are present, and the empty string when either is nil. -/
theorem C19_reference_ids (h : NicHelpers)
    (get : String → String → String → Interface × Option String) (subscriptionId : String)
    (d : NicData) (resp : Interface) (props : InterfacePropertiesFormat)
    (hget : get d.resource_group_name d.name "" = (resp, none))
    (hprops : resp.InterfacePropertiesFormat = some props)
    (hblocks : (h.flattenNetworkInterfaceIPConfigurations props.IPConfigurations).all
      (fun block => block.all (fun kv => ipConfigurationAttribute kv.1 kv.2)) = true) :
    (networkInterfaceDataSourceRead h get subscriptionId d).err = none ∧
    (∀ vm id, props.VirtualMachine = some vm → vm.ID = some id →
      (networkInterfaceDataSourceRead h get subscriptionId d).d.virtual_machine_id = id) ∧
    ((props.VirtualMachine = none ∨ props.VirtualMachine = some { ID := none }) →
      (networkInterfaceDataSourceRead h get subscriptionId d).d.virtual_machine_id = "") ∧
    (∀ nsg id, props.NetworkSecurityGroup = some nsg → nsg.ID = some id →
      (networkInterfaceDataSourceRead h get subscriptionId d).d.network_security_group_id = id) ∧
    ((props.NetworkSecurityGroup = none ∨ props.NetworkSecurityGroup = some { ID := none }) →
      (networkInterfaceDataSourceRead h get subscriptionId d).d.network_security_group_id = "") := by
  have hrun : (networkInterfaceDataSourceRead h get subscriptionId d).err = none ∧
      (networkInterfaceDataSourceRead h get subscriptionId d).d.virtual_machine_id
        = subResourceId props.VirtualMachine ∧
      (networkInterfaceDataSourceRead h get subscriptionId d).d.network_security_group_id
        = subResourceId props.NetworkSecurityGroup := by
    unfold networkInterfaceDataSourceRead
    simp only [NewNetworkInterfaceID, hget, hprops, (NicData.set_header _ _ []).1,
      (NicData.set_header _ _ []).2.1, (NicData.set_header _ _ []).2.2.1]
    have hsp := fun D => setInterfaceProperties_references h D props hblocks
    simp only [hsp, (NicData.set_header _ none _).2.2.2, and_self]
  obtain ⟨herr, hvm, hnsg⟩ := hrun
  refine ⟨herr, ?_, ?_, ?_, ?_⟩
  · intro vm id h1 h2
    rw [hvm, h1]
    simp only [subResourceId, h2]
  · intro h1
    rw [hvm]
    rcases h1 with h1 | h1 <;> rw [h1] <;> rfl
  · intro nsg id h1 h2
    rw [hnsg, h1]
    simp only [subResourceId, h2]
  · intro h1
    rw [hnsg]
    rcases h1 with h1 | h1 <;> rw [h1] <;> rfl

/-- Witness of C19: the interface is attached to a virtual machine and has no network
security group; the read stores the machine's ID and the empty string. -/
theorem C19_reference_ids_witness :
    (networkInterfaceDataSourceRead sampleNicHelpers
        (sampleNicGet (some (sampleInterfaceProperties (some { ID := some "vm-1" }) none)))
        "sub" sampleNicData).err = none ∧
    (networkInterfaceDataSourceRead sampleNicHelpers
        (sampleNicGet (some (sampleInterfaceProperties (some { ID := some "vm-1" }) none)))
        "sub" sampleNicData).d.virtual_machine_id = "vm-1" ∧
    (networkInterfaceDataSourceRead sampleNicHelpers
        (sampleNicGet (some (sampleInterfaceProperties (some { ID := some "vm-1" }) none)))
        "sub" sampleNicData).d.network_security_group_id = "" :=
  ⟨(C19_reference_ids sampleNicHelpers
      (sampleNicGet (some (sampleInterfaceProperties (some { ID := some "vm-1" }) none)))
      "sub" sampleNicData _ (sampleInterfaceProperties (some { ID := some "vm-1" }) none)
      rfl rfl rfl).1,
    (C19_reference_ids sampleNicHelpers
      (sampleNicGet (some (sampleInterfaceProperties (some { ID := some "vm-1" }) none)))
      "sub" sampleNicData _ (sampleInterfaceProperties (some { ID := some "vm-1" }) none)
      rfl rfl rfl).2.1 { ID := some "vm-1" } "vm-1" rfl rfl,
    (C19_reference_ids sampleNicHelpers
      (sampleNicGet (some (sampleInterfaceProperties (some { ID := some "vm-1" }) none)))
      "sub" sampleNicData _ (sampleInterfaceProperties (some { ID := some "vm-1" }) none)
      rfl rfl rfl).2.2.2.2 (Or.inl rfl)⟩

/-! ## Claims on the identifier codec -/

/-- A path without `/` is its own single segment. -/
theorem splitSlash_segment (seg : List Char) (hseg : '/' ∉ seg) : splitSlash seg = [seg] := by
  induction seg with
  | nil => rfl
  | cons c cs ih =>
    have hc : c ≠ '/' := fun hc => hseg (by simp [hc])
    have hcs : '/' ∉ cs := fun hm => hseg (List.mem_cons_of_mem _ hm)
    simp [splitSlash, hc, ih hcs]

/-- Cutting a path whose first segment holds no `/`. -/
theorem splitSlash_append (seg rest : List Char) (hseg : '/' ∉ seg) :
    splitSlash (seg ++ '/' :: rest) = seg :: splitSlash rest := by
  induction seg with
  | nil => simp [splitSlash]
  | cons c cs ih =>
    have hc : c ≠ '/' := fun hc => hseg (by simp [hc])
    have hcs : '/' ∉ cs := fun hm => hseg (List.mem_cons_of_mem _ hm)
    simp [splitSlash, hc, ih hcs]

/-- Cutting a joined path gives the segments back, when none of them holds a `/`. -/
theorem splitSlash_joinSlash (seg : List Char) (segs : List (List Char))
    (hsegs : ∀ x ∈ seg :: segs, '/' ∉ x) :
    splitSlash (joinSlash (seg :: segs)) = seg :: segs := by
  induction segs generalizing seg with
  | nil => exact splitSlash_segment seg (hsegs seg (by simp))
  | cons next segs ih =>
    have hseg : '/' ∉ seg := hsegs seg (by simp)
    have hrest : ∀ x ∈ next :: segs, '/' ∉ x := fun x hx => hsegs x (List.mem_cons_of_mem _ hx)
    simp only [joinSlash]
    rw [splitSlash_append seg _ hseg, ih next hrest]

/-- A path has at least one segment. -/
theorem splitSlash_ne_nil (cs : List Char) : splitSlash cs ≠ [] := by
  cases cs with
  | nil => simp [splitSlash]
  | cons c cs =>
    unfold splitSlash
    split
    · simp
    · split <;> simp

/-- Joining with one more character in front of the first segment. -/
theorem joinSlash_cons (c : Char) (seg : List Char) (segs : List (List Char)) :
    joinSlash ((c :: seg) :: segs) = c :: joinSlash (seg :: segs) := by
  cases segs <;> simp [joinSlash]

/-- Joining the segments of a path gives the path back. -/
theorem joinSlash_splitSlash (cs : List Char) : joinSlash (splitSlash cs) = cs := by
  induction cs with
  | nil => rfl
  | cons c cs ih =>
    unfold splitSlash
    by_cases hc : c = '/'
    · simp only [hc, if_true]
      cases hs : splitSlash cs with
      | nil => exact absurd hs (splitSlash_ne_nil cs)
      | cons seg segs =>
        rw [hs] at ih
        simp [joinSlash, ih]
    · simp only [hc, if_false]
      cases hs : splitSlash cs with
      | nil => exact absurd hs (splitSlash_ne_nil cs)
      | cons seg segs =>
        rw [hs] at ih
        simp only [joinSlash_cons, ih]

/-- The segments of a joined identifier, when none of them holds a `/`. -/
theorem segments_joinSegments (seg : String) (segs : List String)
    (hsegs : ∀ x ∈ seg :: segs, IsSegment x) :
    segments (joinSegments (seg :: segs)) = seg :: segs := by
  unfold segments joinSegments
  have hchars : ∀ x ∈ seg.data :: segs.map String.data, '/' ∉ x := by
    intro x hx
    rw [← List.map_cons, List.mem_map] at hx
    obtain ⟨y, hy, rfl⟩ := hx
    exact hsegs y hy
  simp only [List.map_cons]
  rw [splitSlash_joinSlash _ _ hchars]
  simp [List.map_map, Function.comp_def]

/-- Joining the segments of an identifier gives the identifier back. -/
theorem joinSegments_segments (s : String) : joinSegments (segments s) = s := by
  unfold segments joinSegments
  simp [List.map_map, Function.comp_def, joinSlash_splitSlash]

/-- C16: for every string `s` that parses as an NS record identifier, serialising the
parsed identifier gives `s` with the provider and resource type segments in lower case;
and the identifier built from a subscription, resource group, zone and record name that
are path segments parses back to the same four components. -/
theorem C16_identifier_roundtrip (provider s : String) (id : NsRecordId)
    (subscriptionId resourceGroup zone name : String)
    (hs : parseNsRecordID provider s = .ok id)
    (hprovider : lower provider = provider) (hp : IsSegment provider)
    (hsub : IsSegment subscriptionId) (hrg : IsSegment resourceGroup)
    (hzone : IsSegment zone) (hname : IsSegment name) :
    id.ID provider = normalizeId s ∧
    parseNsRecordID provider ((NewNsRecordID subscriptionId resourceGroup zone name).ID provider)
      = .ok (NewNsRecordID subscriptionId resourceGroup zone name) := by
  constructor
  · unfold parseNsRecordID at hs
    unfold normalizeId
    split at hs
    · rename_i sub rg ns rt z marker n hseg
      split at hs
      · rename_i hcond
        obtain ⟨h1, h2, h3⟩ := hcond
        cases hs
        simp only [hseg, NsRecordId.ID, NewNsRecordID, h1, h2, h3]
      · cases hs
    · cases hs
  · have hsegs : ∀ x ∈ [subscriptionId, resourceGroup, provider, "dnszones", zone, "NS", name],
        IsSegment x := by
      intro x hx
      simp only [List.mem_cons, List.mem_singleton, List.not_mem_nil, or_false] at hx
      rcases hx with rfl | rfl | rfl | rfl | rfl | rfl | rfl
      · exact hsub
      · exact hrg
      · exact hp
      · decide
      · exact hzone
      · decide
      · exact hname
    have hdns : lower "dnszones" = "dnszones" := by decide
    unfold parseNsRecordID NsRecordId.ID
    simp only [NewNsRecordID, segments_joinSegments _ _ hsegs, hprovider, hdns, and_self, if_true]

/-- Witness of C16: an identifier written with `Microsoft.Network/dnsZones` parses and
serialises to its lower-case form, and the identifier of `ns1` parses back. -/
theorem C16_identifier_roundtrip_witness :
    (NewNsRecordID "sub" "rg" "example.com" "ns1").ID "microsoft.network"
      = normalizeId "sub/rg/Microsoft.Network/dnsZones/example.com/NS/ns1" ∧
    parseNsRecordID "microsoft.network"
        ((NewNsRecordID "sub" "rg" "example.com" "ns1").ID "microsoft.network")
      = .ok (NewNsRecordID "sub" "rg" "example.com" "ns1") :=
  C16_identifier_roundtrip "microsoft.network"
    "sub/rg/Microsoft.Network/dnsZones/example.com/NS/ns1"
    (NewNsRecordID "sub" "rg" "example.com" "ns1") "sub" "rg" "example.com" "ns1"
    rfl (by decide) (by decide) (by decide) (by decide) (by decide) (by decide)

/-- With lower-case provider and resource type segments an identifier is already in
normal form. -/
theorem normalizeId_of_lower (s subscriptionId resourceGroup provider resourceType zone marker
    name : String)
    (hseg : segments s
      = [subscriptionId, resourceGroup, provider, resourceType, zone, marker, name])
    (hprovider : lower provider = provider) (htype : lower resourceType = resourceType) :
    normalizeId s = s := by
  unfold normalizeId
  simp only [hseg, hprovider, htype]
  rw [← hseg, joinSegments_segments]

/-! ## Claims on route tables -/

/-- C20, as stated, fails: a resource that reads `next_hop_type` back exactly as written
gives `vnetlocal` for the configuration `singleRoute`, which the check
`route.0.next_hop_type == VnetLocal` of `TestAccRouteTable_multipleRoutes` rejects, so
that test of the repository fails against it. -/
theorem C20_next_hop_type_counterexample :
    (readRouteTable (applyRouteTable (fun s => s) noRouteTable
        RouteTableResource.singleRoute)).value (.elem "route" 0 "next_hop_type")
      = some "vnetlocal" ∧
    Check.holds (applyRouteTable (fun s => s) noRouteTable RouteTableResource.singleRoute)
        (.HasValue (.elem "route" 0 "next_hop_type") "VnetLocal") = false ∧
    runSteps (fun s => s) TestAccRouteTable_multipleRoutes noRouteTable = false := by
  decide

/-- C20, amended: a route table configured with `n` route blocks reports `route.# == n`,
and the routes read back in configuration order, each with its `name` and
`address_prefix` exactly as written and its `next_hop_type` in the spelling of the
service; a new table without route block reports `route.# == 0`. With a service that
spells `vnetlocal` as `VnetLocal`, `TestAccRouteTable_basic` and
`TestAccRouteTable_multipleRoutes` pass. -/
theorem C20_routes_read_back (spelling : String → String) (remote : RemoteRouteTable)
    (blocks : List RouteBlock) (bgp : Option Bool) :
    (readRouteTable (applyRouteTable spelling remote
        { route := some blocks, disable_bgp_route_propagation := bgp })).value (.count "route")
      = some (toString blocks.length) ∧
    (∀ i : Nat,
      (readRouteTable (applyRouteTable spelling remote
        { route := some blocks, disable_bgp_route_propagation := bgp })).route[i]?
        = (blocks[i]?).map (fun b => { b with next_hop_type := spelling b.next_hop_type })) ∧
    (readRouteTable (applyRouteTable spelling noRouteTable RouteTableResource.basic)).value
        (.count "route") = some "0" ∧
    runSteps vnetLocalSpelling TestAccRouteTable_basic noRouteTable = true ∧
    runSteps vnetLocalSpelling TestAccRouteTable_multipleRoutes noRouteTable = true := by
  refine ⟨?_, ?_, ?_, by decide, by decide⟩
  · show some (toString (readRouteTable (applyRouteTable spelling remote
        { route := some blocks, disable_bgp_route_propagation := bgp })).route.length) = _
    simp [readRouteTable, applyRouteTable, flattenRouteTableRoutes, expandRouteTableRoutes]
  · intro i
    simp only [readRouteTable, applyRouteTable, flattenRouteTableRoutes, expandRouteTableRoutes,
      Option.getD_some, List.map_map, List.getElem?_map]
    cases blocks[i]? with
    | none => rfl
    | some b => rfl
  · show some (toString (readRouteTable (applyRouteTable spelling noRouteTable
        RouteTableResource.basic)).route.length) = _
    simp only [readRouteTable, applyRouteTable, RouteTableResource.basic, noRouteTable,
      flattenRouteTableRoutes, Option.getD_none, List.map_nil, List.length_nil]
    decide

/-! ## Error paths of the NS record operations -/

/-- C22: when the response of the pre-check `Get` is not NotFound, Create issues that
`Get` only (no `CreateOrUpdate`), leaves the resource data, identifier included, as it
was, and returns an error: the `checking for presence` error around the cause when the
`Get` failed, the import-required error when it did not. -/
theorem C22_create_stops_unless_not_found (h : Helpers) (client : RecordSetsClient)
    (subscriptionId : String) (d : ResourceData) (calls : List ApiCall)
    (hfound : h.ResponseWasNotFound
      (client.Get calls d.resource_group_name d.zone_name d.name .NS).1.Response = false) :
    dnsNsRecordCreate h client subscriptionId d calls =
      { d := d
        calls := calls ++ [.Get d.resource_group_name d.zone_name d.name .NS]
        result :=
          match (client.Get calls d.resource_group_name d.zone_name d.name .NS).2 with
          | some e => .err (.checkingPresence d.name d.zone_name d.resource_group_name e)
          | none => .err (.importAsExists "azurestack_dns_ns_record"
              (h.ID (NewNsRecordID subscriptionId d.resource_group_name d.zone_name d.name))) } := by
  unfold dnsNsRecordCreate
  rcases hg : client.Get calls d.resource_group_name d.zone_name d.name .NS with ⟨existing, err⟩
  rw [hg] at hfound
  simp only [] at hfound
  simp only [hg, hfound]
  cases err <;> rfl

/-- Witness of C22: the pre-check fails with status 500. -/
theorem C22_create_stops_unless_not_found_witness :
    dnsNsRecordCreate sampleHelpers
        (constClient (sampleRecordSet 500 none, some "StatusCode=500") none
          ({ Response := none }, none))
        "sub" (sampleData "" [.str "ns1.example.com"] 3600 []) [] =
      { d := sampleData "" [.str "ns1.example.com"] 3600 []
        calls := [.Get "rg" "example.com" "ns1" .NS]
        result := .err (.checkingPresence "ns1" "example.com" "rg" "StatusCode=500") } :=
  C22_create_stops_unless_not_found sampleHelpers
    (constClient (sampleRecordSet 500 none, some "StatusCode=500") none
      ({ Response := none }, none))
    "sub" (sampleData "" [.str "ns1.example.com"] 3600 []) [] rfl

/-- C23: when the pre-check reports NotFound, the expansion succeeds and `CreateOrUpdate`
fails, Create returns the `creating` error around the cause, leaves the resource data,
identifier included, as it was, and issues no call after the `CreateOrUpdate`, so no Read
is performed. -/
theorem C23_create_failure_sets_no_id (h : Helpers) (client : RecordSetsClient)
    (subscriptionId : String) (d : ResourceData) (calls : List ApiCall)
    (recs : Option (List NsRecord)) (e : String)
    (hnf : h.ResponseWasNotFound
      (client.Get calls d.resource_group_name d.zone_name d.name .NS).1.Response = true)
    (hexp : expandazurestackDnsNsRecords d.records = .ok recs)
    (hfail : (client.CreateOrUpdate
        (calls ++ [.Get d.resource_group_name d.zone_name d.name .NS])
        d.resource_group_name d.zone_name d.name .NS
        { Response := { Response := none }, ID := none, Name := some d.name, Type_ := none,
          Etag := none,
          RecordSetProperties := some
            { Metadata := h.tagsExpand d.tags, TTL := some (int64 d.ttl), Fqdn := none,
              NsRecords := recs } } "" "").2 = some e) :
    dnsNsRecordCreate h client subscriptionId d calls =
      { d := d
        calls := calls ++ [.Get d.resource_group_name d.zone_name d.name .NS] ++
          [.CreateOrUpdate d.resource_group_name d.zone_name d.name .NS
            { Response := { Response := none }, ID := none, Name := some d.name, Type_ := none,
              Etag := none,
              RecordSetProperties := some
                { Metadata := h.tagsExpand d.tags, TTL := some (int64 d.ttl), Fqdn := none,
                  NsRecords := recs } } "" ""]
        result := .err (.creating d.name d.zone_name d.resource_group_name e) } := by
  unfold dnsNsRecordCreate
  rcases hg : client.Get calls d.resource_group_name d.zone_name d.name .NS with ⟨existing, err⟩
  rw [hg] at hnf
  simp only [] at hnf
  simp only [hg, hnf, hexp]
  split
  · rename_i e2 hcu
    rw [hfail] at hcu
    cases hcu
    rfl
  · rename_i hcu
    rw [hfail] at hcu
    cases hcu

/-- Witness of C23: the service answers the create call with an error. -/
theorem C23_create_failure_sets_no_id_witness :
    (dnsNsRecordCreate sampleHelpers
        (constClient (sampleRecordSet 404 none, some "StatusCode=404") (some "StatusCode=409")
          ({ Response := none }, none))
        "sub" (sampleData "" [.str "ns1.example.com"] 3600 []) []).result
      = .err (.creating "ns1" "example.com" "rg" "StatusCode=409") ∧
    (dnsNsRecordCreate sampleHelpers
        (constClient (sampleRecordSet 404 none, some "StatusCode=404") (some "StatusCode=409")
          ({ Response := none }, none))
        "sub" (sampleData "" [.str "ns1.example.com"] 3600 []) []).d.id = "" :=
  ⟨congrArg Run.result (C23_create_failure_sets_no_id sampleHelpers
      (constClient (sampleRecordSet 404 none, some "StatusCode=404") (some "StatusCode=409")
        ({ Response := none }, none))
      "sub" (sampleData "" [.str "ns1.example.com"] 3600 []) []
      (some [{ Nsdname := some "ns1.example.com" }]) "StatusCode=409" rfl rfl rfl),
    rfl⟩

/-- C24: for an identifier that parses and a delete response that carries a status code,
Delete returns nil exactly when the code is 200, whatever error the client call returned;
with every other code it returns the `deleting` error around that error value. -/
theorem C24_delete_nil_iff_status_ok (h : Helpers) (client : RecordSetsClient)
    (d : ResourceData) (calls : List ApiCall) (id : NsRecordId) (r : HttpResponse)
    (hid : h.NsRecordID d.id = .ok id)
    (hresp : (client.Delete calls id.ResourceGroup id.DnszoneName id.NSName .NS "").1.Response
      = some r) :
    ((dnsNsRecordDelete h client d calls).result = .ok ↔ r.StatusCode = 200) ∧
    (r.StatusCode ≠ 200 →
      (dnsNsRecordDelete h client d calls).result = .err (.deleting id.NSName
        (client.Delete calls id.ResourceGroup id.DnszoneName id.NSName .NS "").2)) := by
  unfold dnsNsRecordDelete
  rcases hg : client.Delete calls id.ResourceGroup id.DnszoneName id.NSName .NS "" with ⟨resp, err⟩
  rw [hg] at hresp
  simp only [] at hresp
  simp only [hid, hg, hresp, StatusOK]
  by_cases hs : r.StatusCode = 200
  · simp [hs]
  · simp [hs]

/-- Witness of C24: the statuses 202, 204 and 404, each with a nil error from the client,
make Delete return an error. -/
theorem C24_delete_nil_iff_status_ok_witness :
    (dnsNsRecordDelete sampleHelpers
        (constClient (sampleRecordSet 200 none, none) none
          ({ Response := some { StatusCode := 204 } }, none))
        (sampleData sampleId [] 3600 []) []).result = .err (.deleting "ns1" none) ∧
    (dnsNsRecordDelete sampleHelpers
        (constClient (sampleRecordSet 200 none, none) none
          ({ Response := some { StatusCode := 202 } }, none))
        (sampleData sampleId [] 3600 []) []).result = .err (.deleting "ns1" none) ∧
    (dnsNsRecordDelete sampleHelpers
        (constClient (sampleRecordSet 200 none, none) none
          ({ Response := some { StatusCode := 404 } }, none))
        (sampleData sampleId [] 3600 []) []).result = .err (.deleting "ns1" none) :=
  ⟨(C24_delete_nil_iff_status_ok sampleHelpers
      (constClient (sampleRecordSet 200 none, none) none
        ({ Response := some { StatusCode := 204 } }, none))
      (sampleData sampleId [] 3600 []) [] (NewNsRecordID "sub" "rg" "example.com" "ns1")
      { StatusCode := 204 } rfl rfl).2 (by decide),
    (C24_delete_nil_iff_status_ok sampleHelpers
      (constClient (sampleRecordSet 200 none, none) none
        ({ Response := some { StatusCode := 202 } }, none))
      (sampleData sampleId [] 3600 []) [] (NewNsRecordID "sub" "rg" "example.com" "ns1")
      { StatusCode := 202 } rfl rfl).2 (by decide),
    (C24_delete_nil_iff_status_ok sampleHelpers
      (constClient (sampleRecordSet 200 none, none) none
        ({ Response := some { StatusCode := 404 } }, none))
      (sampleData sampleId [] 3600 []) [] (NewNsRecordID "sub" "rg" "example.com" "ns1")
      { StatusCode := 404 } rfl rfl).2 (by decide)⟩

/-- C25: for every record list, flattening returns the names of the records whose name
pointer is not nil, in their original order, and nothing else; the length of the result
is the number of records with a name and is at most the length of the input. A nil list
gives the empty list. -/
theorem C25_flatten_names_in_order (rs : List NsRecord) :
    flattenazurestackDnsNsRecords (some rs)
      = some (rs.filterMap (fun r => r.Nsdname.map Value.str)) ∧
    (flattenazurestackDnsNsRecords (some rs)).elems.length
      = rs.countP (fun r => r.Nsdname.isSome) ∧
    (flattenazurestackDnsNsRecords (some rs)).elems.length ≤ rs.length ∧
    (flattenazurestackDnsNsRecords none).elems = [] := by
  have hflat : flattenazurestackDnsNsRecords (some rs)
      = some (rs.filterMap (fun r => r.Nsdname.map Value.str)) := by
    simp [flattenazurestackDnsNsRecords, flattenLoop_eq]
  have hlen : (rs.filterMap (fun r => r.Nsdname.map Value.str)).length
      = rs.countP (fun r => r.Nsdname.isSome) := by
    clear hflat
    induction rs with
    | nil => rfl
    | cons r rs ih =>
      cases hr : r.Nsdname with
      | none => simp [List.filterMap_cons, List.countP_cons, hr, ih]
      | some s => simp [List.filterMap_cons, List.countP_cons, hr, ih]
  refine ⟨hflat, ?_, ?_, rfl⟩
  · rw [hflat]
    exact hlen
  · rw [hflat]
    show (rs.filterMap (fun r => r.Nsdname.map Value.str)).length ≤ rs.length
    rw [hlen]
    exact List.countP_le_length _

/-- C28: for an identifier that parses, when the `Get` of Update fails, with NotFound or
otherwise, or returns a record set whose properties are nil, Update issues that `Get`
only (no `CreateOrUpdate`), leaves the resource data, identifier included, as it was, and
returns an error: `retrieving` around the cause, or the nil properties error. -/
theorem C28_update_stops_without_properties (h : Helpers) (client : RecordSetsClient)
    (d : ResourceData) (calls : List ApiCall) (id : NsRecordId)
    (hid : h.NsRecordID d.id = .ok id)
    (hfail : (client.Get calls id.ResourceGroup id.DnszoneName id.NSName .NS).2 ≠ none ∨
      (client.Get calls id.ResourceGroup id.DnszoneName id.NSName .NS).1.RecordSetProperties
        = none) :
    dnsNsRecordUpdate h client d calls =
      { d := d
        calls := calls ++ [.Get id.ResourceGroup id.DnszoneName id.NSName .NS]
        result :=
          match (client.Get calls id.ResourceGroup id.DnszoneName id.NSName .NS).2 with
          | some e => .err (.retrieving id.NSName id.DnszoneName id.ResourceGroup e)
          | none => .err (.propertiesNil id.NSName id.DnszoneName id.ResourceGroup) } := by
  unfold dnsNsRecordUpdate
  rcases hg : client.Get calls id.ResourceGroup id.DnszoneName id.NSName .NS with ⟨existing, err⟩
  rw [hg] at hfail
  simp only [] at hfail
  simp only [hid, hg]
  cases err with
  | some e => rfl
  | none =>
    rcases hfail with hfail | hfail
    · exact absurd rfl hfail
    · simp only [hfail]

/-- Witness of C28: the record is gone (the `Get` fails with status 404), and Update
returns the `retrieving` error without sending anything. -/
theorem C28_update_stops_without_properties_witness :
    dnsNsRecordUpdate sampleHelpers
        (constClient (sampleRecordSet 404 none, some "StatusCode=404") none
          ({ Response := none }, none))
        (sampleData sampleId [.str "ns1.example.com"] 3600 ["ttl"]) [] =
      { d := sampleData sampleId [.str "ns1.example.com"] 3600 ["ttl"]
        calls := [.Get "rg" "example.com" "ns1" .NS]
        result := .err (.retrieving "ns1" "example.com" "rg" "StatusCode=404") } :=
  C28_update_stops_without_properties sampleHelpers
    (constClient (sampleRecordSet 404 none, some "StatusCode=404") none
      ({ Response := none }, none))
    (sampleData sampleId [.str "ns1.example.com"] 3600 ["ttl"]) []
    (NewNsRecordID "sub" "rg" "example.com" "ns1") rfl (Or.inl (by decide))

/-! ## Further claims on the network interface data source -/

/-- The loop over the IP configurations: the addresses found are appended in order, and
the first address is the first one that is not empty, unless one was found before. -/
theorem privateIpLoop_eq (configs : List InterfaceIPConfiguration) (first : String)
    (acc : List Value) :
    privateIpLoop configs first acc =
      (if first = "" then
          ((configs.filterMap
            (fun c => c.InterfaceIPConfigurationPropertiesFormat.bind (·.PrivateIPAddress))).find?
              (fun a => decide (a ≠ ""))).getD ""
        else first,
       acc ++ (configs.filterMap
          (fun c => c.InterfaceIPConfigurationPropertiesFormat.bind (·.PrivateIPAddress))).map
            Value.str) := by
  induction configs generalizing first acc with
  | nil => by_cases hf : first = "" <;> simp [privateIpLoop, hf]
  | cons config rest ih =>
    cases h1 : config.InterfaceIPConfigurationPropertiesFormat with
    | none => simp [privateIpLoop, h1, ih, List.filterMap_cons]
    | some format =>
      cases h2 : format.PrivateIPAddress with
      | none => simp [privateIpLoop, h1, h2, ih, List.filterMap_cons]
      | some ip =>
        by_cases hf : first = ""
        · by_cases hip : ip = "" <;>
            simp [privateIpLoop, h1, h2, ih, List.filterMap_cons, List.find?_cons, hf, hip]
        · simp [privateIpLoop, h1, h2, ih, List.filterMap_cons, List.find?_cons, hf]

/-- What the part under `props != nil` stores for the private addresses, whether the
later `d.Set` calls succeed or not. -/
theorem setInterfaceProperties_private (h : NicHelpers) (d : NicData)
    (props : InterfacePropertiesFormat) :
    (setInterfaceProperties h d props).1.private_ip_addresses
      = ((props.IPConfigurations.getD []).filterMap
          (fun c => c.InterfaceIPConfigurationPropertiesFormat.bind (·.PrivateIPAddress))).map
            Value.str ∧
    (setInterfaceProperties h d props).1.private_ip_address
      = (((props.IPConfigurations.getD []).filterMap
          (fun c => c.InterfaceIPConfigurationPropertiesFormat.bind (·.PrivateIPAddress))).find?
            (fun a => decide (a ≠ ""))).getD "" := by
  have hloop : (match props.IPConfigurations with
        | some cs => privateIpLoop cs "" []
        | none => ("", [])) =
      ((((props.IPConfigurations.getD []).filterMap
          (fun c => c.InterfaceIPConfigurationPropertiesFormat.bind (·.PrivateIPAddress))).find?
            (fun a => decide (a ≠ ""))).getD "",
       ((props.IPConfigurations.getD []).filterMap
          (fun c => c.InterfaceIPConfigurationPropertiesFormat.bind (·.PrivateIPAddress))).map
            Value.str) := by
    cases props.IPConfigurations with
    | none => rfl
    | some cs => simp [privateIpLoop_eq]
  have hstr : (((props.IPConfigurations.getD []).filterMap
      (fun c => c.InterfaceIPConfigurationPropertiesFormat.bind (·.PrivateIPAddress))).map
        Value.str).all Value.isStr = true := all_isStr_strings _
  unfold setInterfaceProperties
  simp only [hloop, NicData.set_mac_address, NicData.set_private_ip_address,
    NicData.set_private_ip_addresses _ _ hstr, Option.getD_some]
  by_cases hblocks : (h.flattenNetworkInterfaceIPConfigurations props.IPConfigurations).all
      (fun block => block.all (fun kv => ipConfigurationAttribute kv.1 kv.2)) = true
  · simp only [NicData.set_ip_configuration _ _ hblocks, NicData.set_virtual_machine_id,
      NicData.set_internal_dns_name_label, NicData.set_network_security_group_id,
      NicData.set_applied_dns_servers, NicData.set_dns_servers, NicData.set_enable_ip_forwarding]
    cases props.DNSSettings <;> simp
  · have hset : ∀ D : NicData,
        D.Set "ip_configuration"
          (.blocks (h.flattenNetworkInterfaceIPConfigurations props.IPConfigurations))
        = (D, some "ip_configuration: invalid block") := by
      intro D
      show (if (h.flattenNetworkInterfaceIPConfigurations props.IPConfigurations).all
        (fun block => block.all (fun kv => ipConfigurationAttribute kv.1 kv.2)) then _ else _) = _
      simp only [hblocks, Bool.false_eq_true, if_false]
    simp only [hset]
    exact ⟨trivial, trivial⟩

/-- C26: when the `Get` succeeds with interface properties, `private_ip_addresses` is
the list, in response order, of the private IP addresses of the IP configurations that
have properties and an address, and `private_ip_address` is the first entry of that list
that is not the empty string, or the empty string when there is none. -/
theorem C26_private_ip_addresses (h : NicHelpers)
    (get : String → String → String → Interface × Option String) (subscriptionId : String)
    (d : NicData) (resp : Interface) (props : InterfacePropertiesFormat)
    (hget : get d.resource_group_name d.name "" = (resp, none))
    (hprops : resp.InterfacePropertiesFormat = some props) :
    (networkInterfaceDataSourceRead h get subscriptionId d).d.private_ip_addresses
      = ((props.IPConfigurations.getD []).filterMap
          (fun c => c.InterfaceIPConfigurationPropertiesFormat.bind (·.PrivateIPAddress))).map
            Value.str ∧
    (networkInterfaceDataSourceRead h get subscriptionId d).d.private_ip_address
      = (((props.IPConfigurations.getD []).filterMap
          (fun c => c.InterfaceIPConfigurationPropertiesFormat.bind (·.PrivateIPAddress))).find?
            (fun a => decide (a ≠ ""))).getD "" := by
  have hsp := fun D => setInterfaceProperties_private h D props
  unfold networkInterfaceDataSourceRead
  simp only [NewNetworkInterfaceID, hget, hprops, (NicData.set_header _ _ []).1,
    (NicData.set_header _ _ []).2.1, (NicData.set_header _ _ []).2.2.1]
  split
  · simp only [hsp, and_self]
  · simp only [(NicData.set_header _ none _).2.2.2, hsp, and_self]

/-- Witness of C26: two IP configurations with addresses, the first of them empty,
around one without properties. -/
theorem C26_private_ip_addresses_witness :
    (networkInterfaceDataSourceRead sampleNicHelpers (sampleNicGet (some sampleAddressProperties))
        "sub" sampleNicData).d.private_ip_addresses = [.str "", .str "10.0.0.5"] ∧
    (networkInterfaceDataSourceRead sampleNicHelpers (sampleNicGet (some sampleAddressProperties))
        "sub" sampleNicData).d.private_ip_address = "10.0.0.5" :=
  C26_private_ip_addresses sampleNicHelpers (sampleNicGet (some sampleAddressProperties))
    "sub" sampleNicData (sampleNicGet (some sampleAddressProperties) "rg" "nic1" "").1
    sampleAddressProperties rfl rfl

/-- C27: when the `Get` of the data source fails, with NotFound or otherwise, the read
returns an error and leaves the state, identifier and attributes, as it was: the
identifier is set on the path of a successful `Get` only. -/
theorem C27_failed_get_sets_nothing (h : NicHelpers)
    (get : String → String → String → Interface × Option String) (subscriptionId : String)
    (d : NicData) (e : String)
    (hfail : (get d.resource_group_name d.name "").2 = some e) :
    (networkInterfaceDataSourceRead h get subscriptionId d).d = d ∧
    (networkInterfaceDataSourceRead h get subscriptionId d).err =
      some (if h.ResponseWasNotFound (get d.resource_group_name d.name "").1.Response then
          .notFound (h.idString (NewNetworkInterfaceID subscriptionId d.resource_group_name d.name))
        else
          .retrieving
            (h.idString (NewNetworkInterfaceID subscriptionId d.resource_group_name d.name)) e) := by
  unfold networkInterfaceDataSourceRead
  rcases hg : get d.resource_group_name d.name "" with ⟨resp, err⟩
  rw [hg] at hfail
  simp only [] at hfail
  subst hfail
  simp only [NewNetworkInterfaceID, hg]
  split <;> exact ⟨rfl, rfl⟩

/-- Witness of C27: the interface does not exist (status 404). -/
theorem C27_failed_get_sets_nothing_witness :
    (networkInterfaceDataSourceRead sampleNicHelpers sampleNicGetNotFound "sub"
        sampleNicData).d = sampleNicData ∧
    (networkInterfaceDataSourceRead sampleNicHelpers sampleNicGetNotFound "sub"
        sampleNicData).err =
      some (.notFound "Network Interface: (Name nic1 / Resource Group rg)") :=
  C27_failed_get_sets_nothing sampleNicHelpers sampleNicGetNotFound "sub" sampleNicData
    "StatusCode=404" rfl

/-! ## Further claims on the shared test client -/

/-- While the handle is unset, a call of `Build` runs the authentication builder. -/
theorem Build_of_unset {Config Features Client : Type} (env : TestEnv Config Features Client)
    (st : TestClientState Client) (hunset : st._client = none) :
    ∃ builder tail,
      (Build env st).2.events = st.events ++ BuildEvent.authenticationBuild builder :: tail := by
  refine ⟨{ SubscriptionID := env.Getenv "ARM_SUBSCRIPTION_ID"
            ClientID := env.Getenv "ARM_CLIENT_ID"
            TenantID := env.Getenv "ARM_TENANT_ID"
            ClientSecret := env.Getenv "ARM_CLIENT_SECRET"
            MetadataHost := env.Getenv "ARM_METADATA_HOST"
            Environment := env.Getenv "ARM_ENVIRONMENT"
            SupportsClientSecretAuth := true }, ?_⟩
  unfold Build
  simp only [hunset]
  split
  · exact ⟨[], rfl⟩
  · split
    · exact ⟨[BuildEvent.clientsBuild (env.Getenv "TERRAFORM_CORE_VERSION")], by simp⟩
    · exact ⟨[BuildEvent.clientsBuild (env.Getenv "TERRAFORM_CORE_VERSION")], by simp⟩

/-- A call of `Build` that returns an error returns no client and leaves the handle
unset. -/
theorem Build_error {Config Features Client : Type} (env : TestEnv Config Features Client)
    (st : TestClientState Client) (e : BuildError)
    (hfail : (Build env st).1.2 = some e) :
    (Build env st).1.1 = none ∧ (Build env st).2._client = none := by
  unfold Build at hfail ⊢
  cases hst : st._client with
  | some c => simp [hst] at hfail
  | none =>
    simp only [hst] at hfail ⊢
    split
    · exact ⟨rfl, rfl⟩
    · split
      · exact ⟨rfl, rfl⟩
      · rename_i hb _ _ hc
        simp [hb, hc] at hfail

/-- With the handle unset, a failure of the authentication builder makes `Build` return
no client and the `building ARM Client` error around the cause. -/
theorem Build_authentication_failure {Config Features Client : Type}
    (env : TestEnv Config Features Client) (st : TestClientState Client) (err : String)
    (hunset : st._client = none)
    (hfail : (env.builderBuild (envAuthBuilder env)).2 = some err) :
    (Build env st).1 = (none, some (.buildingARMClient err)) := by
  unfold Build
  unfold envAuthBuilder at hfail
  simp only [hunset]
  split
  · rename_i hb
    rw [hb] at hfail
    cases hfail
    rfl
  · rename_i hb
    rw [hb] at hfail
    cases hfail

/-- With the handle unset and the authentication config built, a failure of
`clients.Build` makes `Build` return no client and the error of `clients.Build`. -/
theorem Build_clients_failure {Config Features Client : Type}
    (env : TestEnv Config Features Client) (st : TestClientState Client) (err : String)
    (hunset : st._client = none)
    (hauth : (env.builderBuild (envAuthBuilder env)).2 = none)
    (hfail : (env.clientsBuild
      (envClientBuilder env (env.builderBuild (envAuthBuilder env)).1)).2 = some err) :
    (Build env st).1 = (none, some (.clientsBuild err)) := by
  unfold Build
  unfold envClientBuilder envAuthBuilder at hfail
  unfold envAuthBuilder at hauth
  simp only [hunset]
  split
  · rename_i hb
    rw [hb] at hauth
    cases hauth
  · rename_i config hb
    rw [hb] at hfail
    simp only [] at hfail
    split
    · rename_i hc
      rw [hc] at hfail
      cases hfail
      rfl
    · rename_i hc
      rw [hc] at hfail
      cases hfail

/-- C29: with the shared handle unset, when the authentication builder fails
`testclient.Build` returns a nil client with the `building ARM Client` error around the
cause, and when `clients.Build` fails it returns a nil client with that error. In both
cases the handle stays unset, and the next call of `Build`, under whatever environment,
runs the authentication builder again. -/
theorem C29_build_failure_leaves_handle_unset {Config Features Client : Type}
    (env next : TestEnv Config Features Client) (st : TestClientState Client)
    (hunset : st._client = none) :
    (∀ err, (env.builderBuild (envAuthBuilder env)).2 = some err →
      (Build env st).1 = (none, some (.buildingARMClient err)) ∧
      (Build env st).2._client = none ∧
      ∃ builder tail,
        (Build next (Build env st).2).2.events
          = (Build env st).2.events ++ BuildEvent.authenticationBuild builder :: tail) ∧
    (∀ err, (env.builderBuild (envAuthBuilder env)).2 = none →
      (env.clientsBuild (envClientBuilder env (env.builderBuild (envAuthBuilder env)).1)).2
        = some err →
      (Build env st).1 = (none, some (.clientsBuild err)) ∧
      (Build env st).2._client = none ∧
      ∃ builder tail,
        (Build next (Build env st).2).2.events
          = (Build env st).2.events ++ BuildEvent.authenticationBuild builder :: tail) := by
  constructor
  · intro err hfail
    have hret := Build_authentication_failure env st err hunset hfail
    have herr : (Build env st).1.2 = some (.buildingARMClient err) := by rw [hret]
    obtain ⟨_, hkept⟩ := Build_error env st _ herr
    exact ⟨hret, hkept, Build_of_unset next (Build env st).2 hkept⟩
  · intro err hauth hfail
    have hret := Build_clients_failure env st err hunset hauth hfail
    have herr : (Build env st).1.2 = some (.clientsBuild err) := by rw [hret]
    obtain ⟨_, hkept⟩ := Build_error env st _ herr
    exact ⟨hret, hkept, Build_of_unset next (Build env st).2 hkept⟩

/-- Witness of C29: on a first call the authentication builder fails, and on another the
client builder; each call returns no client with the error, the handle stays unset, and
a next call, under an environment that works, builds the client. -/
theorem C29_build_failure_leaves_handle_unset_witness :
    (Build failingTestEnv { _client := none, events := [] }).1
      = (none, some (.buildingARMClient "no credentials")) ∧
    (Build failingTestEnv { _client := none, events := [] }).2._client = none ∧
    (Build failingClientsTestEnv { _client := none, events := [] }).1
      = (none, some (.clientsBuild "endpoint unreachable")) ∧
    (Build failingClientsTestEnv { _client := none, events := [] }).2._client = none ∧
    (Build (sampleTestEnv "client-1")
        (Build failingClientsTestEnv { _client := none, events := [] }).2).1
      = (some "client-1", none) :=
  ⟨((C29_build_failure_leaves_handle_unset failingTestEnv (sampleTestEnv "client-1")
      { _client := none, events := [] } rfl).1 "no credentials" rfl).1,
    ((C29_build_failure_leaves_handle_unset failingTestEnv (sampleTestEnv "client-1")
      { _client := none, events := [] } rfl).1 "no credentials" rfl).2.1,
    ((C29_build_failure_leaves_handle_unset failingClientsTestEnv (sampleTestEnv "client-1")
      { _client := none, events := [] } rfl).2 "endpoint unreachable" rfl rfl).1,
    ((C29_build_failure_leaves_handle_unset failingClientsTestEnv (sampleTestEnv "client-1")
      { _client := none, events := [] } rfl).2 "endpoint unreachable" rfl rfl).2.1,
    rfl⟩

/-! ## Further claims on route tables -/

/-- C21: for a route table that has one route, applying the configuration without any
route block leaves the routes as they are, so `route.#` stays 1, and applying the
configuration with `route = []` removes them, so `route.#` becomes 0; the steps of
`TestAccRouteTable_removeRoute` pass. -/
theorem C21_absent_routes_kept_empty_removed (spelling : String → String)
    (remote : RemoteRouteTable) (r : Route) (hone : remote.Routes = some [r]) :
    (applyRouteTable spelling remote RouteTableResource.noRouteBlocks).Routes = remote.Routes ∧
    (readRouteTable (applyRouteTable spelling remote RouteTableResource.noRouteBlocks)).value
        (.count "route") = some "1" ∧
    (readRouteTable (applyRouteTable spelling remote RouteTableResource.singleRouteRemoved)).value
        (.count "route") = some "0" ∧
    runSteps vnetLocalSpelling TestAccRouteTable_removeRoute noRouteTable = true := by
  refine ⟨rfl, ?_, ?_, by decide⟩
  · show some (toString (readRouteTable
        (applyRouteTable spelling remote RouteTableResource.noRouteBlocks)).route.length) = _
    simp only [readRouteTable, applyRouteTable, RouteTableResource.noRouteBlocks, hone,
      flattenRouteTableRoutes, Option.getD_some, List.map_cons, List.map_nil,
      List.length_singleton]
    decide
  · show some (toString (readRouteTable
        (applyRouteTable spelling remote RouteTableResource.singleRouteRemoved)).route.length) = _
    simp only [readRouteTable, applyRouteTable, RouteTableResource.singleRouteRemoved,
      flattenRouteTableRoutes, expandRouteTableRoutes, Option.getD_some, List.map_nil,
      List.length_nil]
    decide

/-- Witness of C21: the table holds the route of `singleRoute`. -/
theorem C21_absent_routes_kept_empty_removed_witness :
    (applyRouteTable vnetLocalSpelling
        (applyRouteTable vnetLocalSpelling noRouteTable RouteTableResource.singleRoute)
        RouteTableResource.noRouteBlocks).Routes
      = (applyRouteTable vnetLocalSpelling noRouteTable RouteTableResource.singleRoute).Routes ∧
    (readRouteTable (applyRouteTable vnetLocalSpelling
        (applyRouteTable vnetLocalSpelling noRouteTable RouteTableResource.singleRoute)
        RouteTableResource.noRouteBlocks)).value (.count "route") = some "1" ∧
    (readRouteTable (applyRouteTable vnetLocalSpelling
        (applyRouteTable vnetLocalSpelling noRouteTable RouteTableResource.singleRoute)
        RouteTableResource.singleRouteRemoved)).value (.count "route") = some "0" ∧
    runSteps vnetLocalSpelling TestAccRouteTable_removeRoute noRouteTable = true :=
  C21_absent_routes_kept_empty_removed vnetLocalSpelling
    (applyRouteTable vnetLocalSpelling noRouteTable RouteTableResource.singleRoute)
    { Name := some "route1", AddressPrefix := some "10.1.0.0/16", NextHopType := "VnetLocal"
      NextHopIPAddress := none } (by decide)

/-! ## Claims on the client config check -/

/-- C30 fails on the code: `testAzureRMClientConfigAttr` returns the error of the wrapped
check as it is, and with a check that reports a mismatch by expected and actual value,
two states that differ in the actual value only, and two expected values, give different
errors. -/
theorem C30_check_error_carries_values :
    (∀ (ε : Type) (check : String → String → String → TerraformState → Option ε)
        (name key value : String) (s : TerraformState),
      testAzureRMClientConfigAttr check name key value s = check name key value s) ∧
    testAzureRMClientConfigAttr sampleTestCheckResourceAttr
        "data.azurestack_client_config.current" "client_id" "expected-id"
        [("data.azurestack_client_config.current", [("client_id", "actual-1")])]
      = some (.mismatch "data.azurestack_client_config.current" "client_id" "expected-id"
          "actual-1") ∧
    testAzureRMClientConfigAttr sampleTestCheckResourceAttr
        "data.azurestack_client_config.current" "client_id" "expected-id"
        [("data.azurestack_client_config.current", [("client_id", "actual-2")])]
      = some (.mismatch "data.azurestack_client_config.current" "client_id" "expected-id"
          "actual-2") ∧
    testAzureRMClientConfigAttr sampleTestCheckResourceAttr
        "data.azurestack_client_config.current" "client_id" "other-id"
        [("data.azurestack_client_config.current", [("client_id", "actual-1")])]
      = some (.mismatch "data.azurestack_client_config.current" "client_id" "other-id"
          "actual-1") := by
  refine ⟨?_, by decide, by decide, by decide⟩
  intro ε check name key value s
  unfold testAzureRMClientConfigAttr
  cases check name key value s <;> rfl

end AzureStack
